import Mathlib

/-!
Verification of the `SellingPartner` client (src/lib/SellingPartner.js).

The client is embedded shallowly:

* JSON values (the shape of parsed request/response bodies) are the inductive
  type `Json`; JavaScript truthiness, member access and `Object.assign` are
  modelled by `jsTruthy`, `jsGetOpt` and `jsObjectAssign`.
* The mutable fields of a `SellingPartner` instance (`_access_token`,
  `_grantless_tokens`, `_role_credentials`, plus the immutable configuration)
  form the state type `SPState`.
* The external collaborators (the HTTP transport `request`, the `operations`
  catalog, the credential loader, the `Signer`, `fs`, `zlib`) are, per the
  OUT OF SCOPE list of spec §1, modelled at their interface boundary: the
  transport is an oracle `World` holding the queue of responses each endpoint
  will deliver (plus a trace of the externally visible effects), the catalog
  is an explicit lookup-table parameter, gunzip is a function parameter.
  Text parsing (`JSON.parse`, `fast-xml-parser`) is "consumed as a transform
  function": a response body is carried already parsed, as `Option Json`
  (`none` = unparsable).
* `async`/`await` sequencing of the single-threaded client is ordinary
  sequential state passing; a thrown error is `Except.error`.
* AES-256-CBC (the node `crypto.createCipheriv`/`createDecipheriv`, a platform
  library, not repository code) is implemented concretely below, modelled from
  the spec: FIPS-197 AES-256 in CBC mode with PKCS#7 padding.
-/

/-- A parsed JSON value (the result of `JSON.parse` / `xml_parser.parse`).
`undefined` (an absent member) is represented by `Option.none` at use sites. -/
inductive Json where
  | null
  | bool (b : Bool)
  | num (n : Int)
  | str (s : String)
  | arr (xs : List Json)
  | obj (fields : List (String × Json))

/-- JavaScript truthiness of a (defined) value: `null`, `false`, `0` and the
empty string are falsy; every object and array is truthy. -/
def jsTruthy : Json → Bool
  | .null => false
  | .bool b => b
  | .num n => n != 0
  | .str s => s != ""
  | .arr _ => true
  | .obj _ => true

/-- First binding of key `k` in an association list (JS objects have unique
keys, so first = only). -/
def assocGet {α : Type} (l : List (String × α)) (k : String) : Option α :=
  (l.find? (fun p => p.1 == k)).map Prod.snd

/-- JS property write `o[k] = v`: updates the existing binding in place
(keeping its position) or appends a new one. -/
def assocSet {α : Type} (l : List (String × α)) (k : String) (v : α) : List (String × α) :=
  if l.any (fun p => p.1 == k) then l.map (fun p => if p.1 == k then (k, v) else p)
  else l ++ [(k, v)]

/-- Model of `Object.assign(target, source)`: source bindings written into target, in
order. -/
def assocAssign (target source : List (String × Json)) : List (String × Json) :=
  source.foldl (fun acc p => assocSet acc p.1 p.2) target

/-- JS member access `v.k`: `none` both when `v` is not an object and when the
member is absent (in either case the branches below treat it as falsy; access
on `null`/`undefined`, which throws in JS, never occurs on the guarded paths
modelled here). -/
def jsGetOpt (v : Json) (k : String) : Option Json :=
  match v with
  | .obj fields => assocGet fields k
  | _ => none

/-- Truthiness of a possibly-`undefined` value (`undefined` is falsy). -/
def truthyOpt (v : Option Json) : Bool :=
  match v with
  | some j => jsTruthy j
  | none => false

/-- JS member access with `undefined ↦ null` (used where the value is only
stored, never branched on). -/
def jsGetD (v : Json) (k : String) : Json :=
  (jsGetOpt v k).getD .null

mutual

/-- JS `String(v)` coercion, as applied by `RegExp.test` to a non-string
argument.  Array elements are comma-joined; an object stringifies to
"[object Object]".  None of the non-string forms can match the token-expiry
patterns below, which is all the model relies on. -/
def jsToString : Json → String
  | .null => "null"
  | .bool true => "true"
  | .bool false => "false"
  | .num n => toString n
  | .str s => s
  | .arr xs => String.intercalate "," (jsToStringList xs)
  | .obj _ => "[object Object]"

def jsToStringList : List Json → List String
  | [] => []
  | x :: xs => jsToString x :: jsToStringList xs

end

/-- The string `RegExp.test` is applied to for member `k` of error object `e`
(`String(undefined) = "undefined"`). -/
def fieldTestString (e : Json) (k : String) : String :=
  match jsGetOpt e k with
  | some v => jsToString v
  | none => "undefined"

/-- Strict equality `v === "<lit>"` for a possibly-absent member. -/
def isStrEq (v : Option Json) (lit : String) : Bool :=
  match v with
  | some (.str s) => s == lit
  | _ => false

/-- Scan for pattern `b` at any position of `s` not separated from the start
by a line terminator (the JS `.` of `.*` does not match `\n`/`\r`). -/
def findPatternNoNewline (b : List Char) : List Char → Bool
  | [] => b.isEmpty
  | c :: t =>
    b.isPrefixOf (c :: t) || (if c = '\n' || c = '\r' then false else findPatternNoNewline b t)

/-- Test of `/a.*b/` against `s`: an occurrence of `a`, then an occurrence of `b` with no
line terminator in between. -/
def regexDotStar (a b : List Char) : List Char → Bool
  | [] => a.isEmpty && b.isEmpty
  | c :: t =>
    (a.isPrefixOf (c :: t) && findPatternNoNewline b ((c :: t).drop a.length))
      || regexDotStar a b t

/-- Test of `/access token.*expired/` (line 349). -/
def accessTokenExpiredMatch (s : String) : Bool :=
  regexDotStar "access token".data "expired".data s.data

/-- Test of `/security token.*expired/` (line 352). -/
def securityTokenExpiredMatch (s : String) : Bool :=
  regexDotStar "security token".data "expired".data s.data

/-- An error propagated out of a client method.  `custom` is a thrown
`CustomError({code, message, details})` (`./CustomError` is a plain value
carrier outside the analyzed file; per the ApiError shape of the spec it holds a
code, a message and optional details).  `js` is a native runtime failure (a
`TypeError`, a transport with no response, a crypto/zlib failure): the claims
only ever distinguish these from `custom` codes. -/
inductive SPError where
  | custom (code : String) (message : Json) (details : Json)
  | js (msg : String)

/-- The code of a thrown `CustomError`, if the error is one. -/
def SPError.customCode : SPError → Option String
  | .custom c _ _ => some c
  | .js _ => none

/-- Value of `this._role_credentials` once set: `{id, secret, security_token}`
(lines 299-303; the raw parsed values are stored). -/
structure RoleCredentials where
  id : Json
  secret : Json
  security_token : Json

/-- The `options` object after the `Object.assign` with defaults
(lines 51-56). -/
structure SPOptions where
  auto_request_tokens : Bool := true
  auto_request_throttled : Bool := true
  use_sandbox : Bool := false
  only_grantless_operations : Bool := false

/-- The mutable/configured fields of one `SellingPartner` instance.
`access_token` values are stored as the raw JSON values the token endpoint
returned (a field access, truthy-tested before storing). -/
structure SPState where
  region : String
  refresh_token : Option String
  access_token : Option Json
  role_credentials : Option RoleCredentials
  grantless_tokens : List (String × Json)
  options : SPOptions

/-- One HTTP response as seen by the client after body parsing: the transport
(`./request`) is an external collaborator, so the oracle delivers the status
code together with the parse result of the body (`none` = the body text was
not parsable by the parser the caller applies to it). -/
structure HttpResponse where
  statusCode : Nat
  body : Option Json

/-- One response of a presigned transfer URL: `res.chunks` (the raw bytes,
here `List (Fin 256)`), the status code, the XML-parse of the body (for the
error envelope path) and the `content-type` header. -/
structure TransferResponse where
  statusCode : Nat
  chunks : List (Fin 256)
  xmlBody : Option Json
  contentType : String

/-- Externally visible effects, in order. `wait` records seconds
(`_wait(restore_rate)` sleeps `restore_rate * 1000` ms, line 83). -/
inductive Event where
  | tokenRequest
  | roleRequest
  | apiRequest
  | transferGet
  | transferPut (body : List (Fin 256))
  | wait (seconds : Rat)
  | fileRead (path : String)

/-- The transport/filesystem oracle: the responses each external endpoint
will deliver next, the readable files, and the effect trace. -/
structure World where
  tokenResponses : List HttpResponse := []
  roleResponses : List HttpResponse := []
  apiResponses : List HttpResponse := []
  transferResponses : List TransferResponse := []
  files : List (String × List (Fin 256)) := []
  trace : List Event := []

/-- Result of one (possibly state-mutating) client call. -/
structure Outcome (α : Type) where
  result : Except SPError α
  state : SPState
  world : World

def World.popToken (w : World) : Option HttpResponse × World :=
  match w.tokenResponses with
  | [] => (none, { w with trace := w.trace ++ [.tokenRequest] })
  | r :: rest => (some r, { w with tokenResponses := rest, trace := w.trace ++ [.tokenRequest] })

def World.popRole (w : World) : Option HttpResponse × World :=
  match w.roleResponses with
  | [] => (none, { w with trace := w.trace ++ [.roleRequest] })
  | r :: rest => (some r, { w with roleResponses := rest, trace := w.trace ++ [.roleRequest] })

def World.popApi (w : World) : Option HttpResponse × World :=
  match w.apiResponses with
  | [] => (none, { w with trace := w.trace ++ [.apiRequest] })
  | r :: rest => (some r, { w with apiResponses := rest, trace := w.trace ++ [.apiRequest] })

def World.popTransfer (w : World) (ev : Event) : Option TransferResponse × World :=
  match w.transferResponses with
  | [] => (none, { w with trace := w.trace ++ [ev] })
  | r :: rest => (some r, { w with transferResponses := rest, trace := w.trace ++ [ev] })

/-- Truthiness of an optional string argument (`scope` is either absent or a
string; the empty string is falsy). -/
def scopeTruthy : Option String → Bool
  | none => false
  | some s => s != ""

/-- Model of `_tokenExists(scope)` (lines 201-203):
`(this._access_token && !scope) || (scope && this._grantless_tokens[scope])`. -/
def tokenExists (s : SPState) (scope : Option String) : Bool :=
  (truthyOpt s.access_token && !scopeTruthy scope)
    || (scopeTruthy scope && truthyOpt (assocGet s.grantless_tokens (scope.getD "")))

/-- Model of `_constructRefreshAccessTokenBody(scope)` (lines 173-199).  The body
itself is consumed by the external token endpoint and so is not part of the
model; only the validation/throw behaviour is observable. -/
def constructRefreshAccessTokenBody (s : SPState) (scope : Option String) : Except SPError Unit :=
  if scopeTruthy scope then
    if scope.getD "" == "sellingpartnerapi::notifications"
        || scope.getD "" == "sellingpartnerapi::migration" then
      .ok ()
    else
      .error (.custom "INVALID_SCOPE_ERROR"
        (.str "Scope for requesting token for grantless operations is invalid. Please provide one of: sellingpartnerapi::notifications,sellingpartnerapi::migration") .null)
  else if !s.options.only_grantless_operations then
    .ok ()
  else
    .error (.custom "NO_SCOPE_PROVIDED"
      (.str "Grantless tokens require a scope. Please provide one of: sellingpartnerapi::notifications,sellingpartnerapi::migration") .null)

/-- The `else if (json_res.error)` / final `else` of lines 272-282. -/
def refreshAccessTokenErrorBranch (s : SPState) (w1 : World) (body : Json) : Outcome Unit :=
  match jsGetOpt body "error" with
  | some ev =>
    if jsTruthy ev then
      ⟨.error (.custom (jsToString ev) (jsGetD body "error_description") .null), s, w1⟩
    else ⟨.error (.custom "UNKNOWN_REFRESH_ACCESS_TOKEN_ERROR" .null .null), s, w1⟩
  | none => ⟨.error (.custom "UNKNOWN_REFRESH_ACCESS_TOKEN_ERROR" .null .null), s, w1⟩

/-- Model of `refreshAccessToken(scope)` (lines 248-283): build the token-exchange
body, POST it to the OAuth endpoint, parse; a truthy `access_token` member is
stored (keyed by scope when a scope was given, else as the singleton
access-token), a truthy `error` member is rethrown as
`CustomError(error, error_description)`, anything else is
`UNKNOWN_REFRESH_ACCESS_TOKEN_ERROR`. -/
def refreshAccessToken (s : SPState) (w : World) (scope : Option String) : Outcome Unit :=
  match constructRefreshAccessTokenBody s scope with
  | .error e => ⟨.error e, s, w⟩
  | .ok _ =>
    match World.popToken w with
    | (none, w1) => ⟨.error (.js "no response from token endpoint"), s, w1⟩
    | (some res, w1) =>
      match res.body with
      | none => ⟨.error (.custom "REFRESH_ACCESS_TOKEN_PARSE_ERROR" .null .null), s, w1⟩
      | some body =>
        match jsGetOpt body "access_token" with
        | some tok =>
          if jsTruthy tok then
            if scopeTruthy scope then
              ⟨.ok (), { s with grantless_tokens := assocSet s.grantless_tokens (scope.getD "") tok }, w1⟩
            else
              ⟨.ok (), { s with access_token := some tok }, w1⟩
          else refreshAccessTokenErrorBranch s w1 body
        | none => refreshAccessTokenErrorBranch s w1 body

/-- Model of `refreshRoleCredentials()` (lines 285-315): send the signed
role-assumption request (the `Signer` is external; the oracle delivers the
response), XML-parse, and either store
`AssumeRoleResponse.AssumeRoleResult.Credentials` as the role credentials,
rethrow `ErrorResponse.Error` as `CustomError(Code, Message)`, or fail with
`NO_ROLE_CREDENTIALS_RECEIVED`. -/
def refreshRoleCredentials (s : SPState) (w : World) : Outcome Unit :=
  match World.popRole w with
  | (none, w1) => ⟨.error (.js "no response from role-assumption endpoint"), s, w1⟩
  | (some res, w1) =>
    match res.body with
    | none => ⟨.error (.custom "XML_PARSE_ERROR" .null .null), s, w1⟩
    | some body =>
      if jsTruthy body && truthyOpt (jsGetOpt body "AssumeRoleResponse")
          && truthyOpt (jsGetOpt (jsGetD body "AssumeRoleResponse") "AssumeRoleResult")
          && truthyOpt (jsGetOpt (jsGetD (jsGetD body "AssumeRoleResponse") "AssumeRoleResult") "Credentials") then
        let creds := jsGetD (jsGetD (jsGetD body "AssumeRoleResponse") "AssumeRoleResult") "Credentials"
        let rc : RoleCredentials :=
          ⟨jsGetD creds "AccessKeyId", jsGetD creds "SecretAccessKey", jsGetD creds "SessionToken"⟩
        ⟨.ok (), { s with role_credentials := some rc }, w1⟩
      else if jsTruthy body && truthyOpt (jsGetOpt body "ErrorResponse")
          && truthyOpt (jsGetOpt (jsGetD body "ErrorResponse") "Error") then
        let err := jsGetD (jsGetD body "ErrorResponse") "Error"
        ⟨.error (.custom (jsToString (jsGetD err "Code")) (jsGetD err "Message") .null), s, w1⟩
      else
        ⟨.error (.custom "NO_ROLE_CREDENTIALS_RECEIVED" .null .null), s, w1⟩

/-- The final presence check of lines 214-219. -/
def ensureAuthFinalCheck (s : SPState) (w : World) (scope : Option String) : Outcome Unit :=
  if !tokenExists s scope || s.role_credentials.isNone then
    ⟨.error (.custom "NO_ACCESS_TOKEN_AND_OR_ROLE_CREDENTIALS_PRESENT"
      (.str "Did you turn off auto_request_tokens and forgot to refresh the access token and/or role credentials and/or the scope for a grantless token?") .null), s, w⟩
  else ⟨.ok (), s, w⟩

/-- Model of `_validateAccessTokenAndRoleCredentials(scope)` (lines 205-220) — the
the `ensureAuth` of the Token Manager: with auto-refresh on, refresh whatever is
missing; then fail with `NO_ACCESS_TOKEN_AND_OR_ROLE_CREDENTIALS_PRESENT`
when the required token or the role credentials are (still) missing. -/
def ensureAuth (s : SPState) (w : World) (scope : Option String) : Outcome Unit :=
  if s.options.auto_request_tokens then
    match (if !tokenExists s scope then refreshAccessToken s w scope else ⟨.ok (), s, w⟩ : Outcome Unit) with
    | ⟨.error e, s1, w1⟩ => ⟨.error e, s1, w1⟩
    | ⟨.ok _, s1, w1⟩ =>
      match (if s1.role_credentials.isNone then refreshRoleCredentials s1 w1 else ⟨.ok (), s1, w1⟩ : Outcome Unit) with
      | ⟨.error e, s2, w2⟩ => ⟨.error e, s2, w2⟩
      | ⟨.ok _, s2, w2⟩ => ensureAuthFinalCheck s2 w2 scope
  else ensureAuthFinalCheck s w scope

/-- The `config` argument of the constructor.  `credentials`/`credentials_path`
feed the external credential loader (`./credentials`, out of scope per spec
§1, "consumed as an opaque resolved credential bundle"); they are carried for
completeness but `credentials.load` is modelled as total, so they cannot
affect construction. -/
structure SPConfig where
  region : Option String := none
  refresh_token : Option String := none
  access_token : Option Json := none
  role_credentials : Option RoleCredentials := none
  optionsGiven : Option SPOptions := none
  credentials : Json := .null
  credentials_path : Option String := none

/-- The constructor (lines 44-71): assign fields, merge option defaults, load
credentials (external, total), then validate the region against
`/^(eu|na|fe)$/` (an absent or empty region is falsy and also fails), then
require a refresh token unless `only_grantless_operations`. -/
def mkSellingPartner (config : SPConfig) : Except SPError SPState :=
  let opts := config.optionsGiven.getD {}
  let regionOk :=
    match config.region with
    | none => false
    | some r => r == "eu" || r == "na" || r == "fe"
  if !regionOk then
    .error (.custom "NO_VALID_REGION_PROVIDED" (.str "Please provide one of: eu, na or fe") .null)
  else if (match config.refresh_token with | none => true | some t => t == "")
      && !opts.only_grantless_operations then
    .error (.custom "NO_REFRESH_TOKEN_PROVIDED"
      (.str "Please provide a refresh token or set only_grantless_operations option to true") .null)
  else
    .ok
      { region := (config.region).getD ""
        refresh_token := config.refresh_token
        access_token := config.access_token
        role_credentials := config.role_credentials
        grantless_tokens := []
        options := opts }

/-- The single `req_params` object of `callAPI`: the caller supplies
`operation` (plus path/query/body input, opaque here); the catalog entry
expands it with `method`, `scope` (grantless operations only) and
`restore_rate`, and the expanded object is what an auto-retry passes back
into `callAPI`. -/
structure ReqParams where
  operation : Option String := none
  method : String := ""
  scope : Option String := none
  restore_rate : Rat := 0
  input : Json := .null

/-- The external `operations` catalog (`require(./operations)`), "consumed
as a lookup table" (spec §1): operation name to the expansion function
applied at line 324. -/
abbrev Catalog := List (String × (ReqParams → ReqParams))

def catLookup (cat : Catalog) (op : String) : Option (ReqParams → ReqParams) :=
  assocGet cat op

/-- Model of `_validateOperation(operation)` (lines 222-235).  `!operation` is the JS
falsy test, so an absent and an empty operation both yield
`NO_OPERATION_GIVEN`; a named operation missing from the catalog yields
`OPERATION_NOT_FOUND`. -/
def validateOperation (cat : Catalog) (operation : Option String) : Except SPError Unit :=
  if !(match operation with | none => false | some op => op != "") then
    .error (.custom "NO_OPERATION_GIVEN" (.str "Please provide an operation to call") .null)
  else if (catLookup cat (operation.getD "")).isNone then
    .error (.custom "OPERATION_NOT_FOUND" (.str ("No operation found: " ++ operation.getD "")) .null)
  else .ok ()

/-- Model of `_validateOperationAllowance(scope)` (lines 237-244). -/
def validateOperationAllowance (s : SPState) (scope : Option String) : Except SPError Unit :=
  if s.options.only_grantless_operations && !scopeTruthy scope then
    .error (.custom "INVALID_OPERATION_ERROR"
      (.str "Operation is not grantless. Set only_grantless_operations to false and provide a refresh_token to be able to call the operation.") .null)
  else .ok ()

/-- Model of `Object.assign(json_res.pagination, json_res.payload)` (line 374).  Both
sections are objects in every payload the service shape allows; `Object.assign`
onto a primitive (which JS would box) is approximated by the target itself,
and a primitive source contributes no enumerable properties. -/
def jsObjectAssign (target source : Json) : Json :=
  match target, source with
  | .obj ft, .obj fs => .obj (assocAssign ft fs)
  | .obj ft, _ => .obj ft
  | t, _ => t

/-- The success-path result of `callAPI` (lines 370-379): merge a pagination
section into the payload result when both are truthy, else the payload if
truthy, else the whole parsed body. -/
def interpretSuccess (body : Json) : Json :=
  if truthyOpt (jsGetOpt body "pagination") && truthyOpt (jsGetOpt body "payload") then
    jsObjectAssign (jsGetD body "pagination") (jsGetD body "payload")
  else
    match jsGetOpt body "payload" with
    | some p => if jsTruthy p then p else body
    | none => body

/-- The `throw new CustomError(error)` of line 367: `error` is the first
upstream error object; its `code` member (stringified; `"undefined"` when
absent) and `message`/`details` members populate the thrown error. -/
def throwUpstream (error : Json) : SPError :=
  .custom
    (match jsGetOpt error "code" with
     | some v => jsToString v
     | none => "undefined")
    (jsGetD error "message") (jsGetD error "details")

/-- Model of `callAPI(req_params)` (lines 322-380), fuelled.  The JS retry is an
unbounded recursive self-call; every self-call happens strictly after one
API response has been consumed from the oracle, so the wrapper `callAPI`
below supplies `apiResponses.length + 1` fuel, which can never run out (the
fuel-exhausted branch returns a `js` error and is unreachable from the
wrapper).  Flow: validate the operation name, expand it through the catalog,
check grantless allowance, `ensureAuth`, sign (external) and send, then
classify the response. -/
def callAPIFuel : Nat → Catalog → SPState → World → ReqParams → Outcome Json
  | 0, _, s, w, _ => ⟨.error (.js "fuel exhausted"), s, w⟩
  | fuel + 1, cat, s, w, req =>
    match validateOperation cat req.operation with
    | .error e => ⟨.error e, s, w⟩
    | .ok _ =>
      let expand := (catLookup cat (req.operation.getD "")).getD id
      let rp := expand req
      let scope := rp.scope
      match validateOperationAllowance s scope with
      | .error e => ⟨.error e, s, w⟩
      | .ok _ =>
        match ensureAuth s w scope with
        | ⟨.error e, s1, w1⟩ => ⟨.error e, s1, w1⟩
        | ⟨.ok _, s1, w1⟩ =>
          -- token_for_request and the Signer (line 329-330) feed the signed
          -- request, consumed by the transport oracle
          match World.popApi w1 with
          | (none, w2) => ⟨.error (.js "no response from API endpoint"), s1, w2⟩
          | (some res, w2) =>
            if res.statusCode == 204 && rp.method == "DELETE" then
              ⟨.ok (.obj [("success", .bool true)]), s1, w2⟩
            else
              match res.body with
              | none => ⟨.error (.custom "JSON_PARSE_ERROR" .null .null), s1, w2⟩
              | some body =>
                match jsGetOpt body "errors" with
                | some errs =>
                  if jsTruthy errs then
                    match errs with
                    | .arr (error :: _) =>
                      if res.statusCode == 403 && isStrEq (jsGetOpt error "code") "Unauthorized" then
                        if s1.options.auto_request_tokens then
                          if accessTokenExpiredMatch (fieldTestString error "details") then
                            match refreshAccessToken s1 w2 scope with
                            | ⟨.error e, s2, w3⟩ => ⟨.error e, s2, w3⟩
                            | ⟨.ok _, s2, w3⟩ => callAPIFuel fuel cat s2 w3 rp
                          else if securityTokenExpiredMatch (fieldTestString error "message") then
                            match refreshRoleCredentials s1 w2 with
                            | ⟨.error e, s2, w3⟩ => ⟨.error e, s2, w3⟩
                            | ⟨.ok _, s2, w3⟩ => callAPIFuel fuel cat s2 w3 rp
                          else ⟨.error (throwUpstream error), s1, w2⟩
                        else ⟨.error (throwUpstream error), s1, w2⟩
                      else if res.statusCode == 429 && isStrEq (jsGetOpt error "code") "QuotaExceeded"
                          && s1.options.auto_request_throttled then
                        let w3 := { w2 with trace := w2.trace ++ [.wait rp.restore_rate] }
                        callAPIFuel fuel cat s1 w3 rp
                      else if isStrEq (jsGetOpt error "code") "InternalFailure"
                          && s1.options.use_sandbox then
                        ⟨.error (.custom "INVALID_SANDBOX_PARAMETERS"
                          (.str "You are in SANDBOX mode, make sure sandbox parameters are correct, as in Amazon SP API documentation") .null), s1, w2⟩
                      else ⟨.error (throwUpstream error), s1, w2⟩
                    | _ =>
                      -- `json_res.errors[0]` on a truthy non-array (or empty
                      -- array) `errors`: `error.code` throws a TypeError
                      ⟨.error (.js "TypeError: cannot read properties of undefined"), s1, w2⟩
                  else ⟨.ok (interpretSuccess body), s1, w2⟩
                | none => ⟨.ok (interpretSuccess body), s1, w2⟩

/-- Entry point `callAPI` as called by users: fuel as explained above. -/
def callAPI (cat : Catalog) (s : SPState) (w : World) (req : ReqParams) : Outcome Json :=
  callAPIFuel (w.apiResponses.length + 1) cat s w req

/-! ### AES-256-CBC (modelled from the spec: the transfer codec encrypts and
decrypts with AES-256 in CBC mode via the node `crypto` platform library, which
is not repository code; this is FIPS-197 AES-256, CBC chaining and PKCS#7
padding, implemented executably). -/

/-- Byte xor. -/
def bxor (a b : Fin 256) : Fin 256 :=
  ⟨a.val ^^^ b.val, Nat.xor_lt_two_pow (n := 8) a.isLt b.isLt⟩

/-- GF(2^8) doubling (`xtime`) on naturals: shift left and reduce by the AES
polynomial when bit 7 was set. -/
def xtN (x : Nat) : Nat :=
  ((x * 2) % 256) ^^^ (if x.testBit 7 then 27 else 0)

theorem xtN_lt (x : Nat) : xtN x < 256 := by
  apply Nat.xor_lt_two_pow (n := 8)
  · exact Nat.mod_lt _ (by norm_num)
  · split <;> norm_num

/-- GF(2^8) doubling on bytes. -/
def xtime (x : Fin 256) : Fin 256 := ⟨xtN x.val, xtN_lt x.val⟩

/-- GF(2^8) multiplication by the fixed MixColumns coefficients. -/
def g2 (x : Fin 256) : Fin 256 := xtime x

def g3 (x : Fin 256) : Fin 256 := bxor (xtime x) x

def g9 (x : Fin 256) : Fin 256 := bxor (xtime (xtime (xtime x))) x

def g11 (x : Fin 256) : Fin 256 := bxor (bxor (xtime (xtime (xtime x))) (xtime x)) x

def g13 (x : Fin 256) : Fin 256 := bxor (bxor (xtime (xtime (xtime x))) (xtime (xtime x))) x

def g14 (x : Fin 256) : Fin 256 := bxor (bxor (xtime (xtime (xtime x))) (xtime (xtime x))) (xtime x)
def sboxTable : List (Fin 256) := [
    0x63, 0x7c, 0x77, 0x7b, 0xf2, 0x6b, 0x6f, 0xc5, 0x30, 0x01, 0x67, 0x2b, 0xfe, 0xd7, 0xab, 0x76,
    0xca, 0x82, 0xc9, 0x7d, 0xfa, 0x59, 0x47, 0xf0, 0xad, 0xd4, 0xa2, 0xaf, 0x9c, 0xa4, 0x72, 0xc0,
    0xb7, 0xfd, 0x93, 0x26, 0x36, 0x3f, 0xf7, 0xcc, 0x34, 0xa5, 0xe5, 0xf1, 0x71, 0xd8, 0x31, 0x15,
    0x04, 0xc7, 0x23, 0xc3, 0x18, 0x96, 0x05, 0x9a, 0x07, 0x12, 0x80, 0xe2, 0xeb, 0x27, 0xb2, 0x75,
    0x09, 0x83, 0x2c, 0x1a, 0x1b, 0x6e, 0x5a, 0xa0, 0x52, 0x3b, 0xd6, 0xb3, 0x29, 0xe3, 0x2f, 0x84,
    0x53, 0xd1, 0x00, 0xed, 0x20, 0xfc, 0xb1, 0x5b, 0x6a, 0xcb, 0xbe, 0x39, 0x4a, 0x4c, 0x58, 0xcf,
    0xd0, 0xef, 0xaa, 0xfb, 0x43, 0x4d, 0x33, 0x85, 0x45, 0xf9, 0x02, 0x7f, 0x50, 0x3c, 0x9f, 0xa8,
    0x51, 0xa3, 0x40, 0x8f, 0x92, 0x9d, 0x38, 0xf5, 0xbc, 0xb6, 0xda, 0x21, 0x10, 0xff, 0xf3, 0xd2,
    0xcd, 0x0c, 0x13, 0xec, 0x5f, 0x97, 0x44, 0x17, 0xc4, 0xa7, 0x7e, 0x3d, 0x64, 0x5d, 0x19, 0x73,
    0x60, 0x81, 0x4f, 0xdc, 0x22, 0x2a, 0x90, 0x88, 0x46, 0xee, 0xb8, 0x14, 0xde, 0x5e, 0x0b, 0xdb,
    0xe0, 0x32, 0x3a, 0x0a, 0x49, 0x06, 0x24, 0x5c, 0xc2, 0xd3, 0xac, 0x62, 0x91, 0x95, 0xe4, 0x79,
    0xe7, 0xc8, 0x37, 0x6d, 0x8d, 0xd5, 0x4e, 0xa9, 0x6c, 0x56, 0xf4, 0xea, 0x65, 0x7a, 0xae, 0x08,
    0xba, 0x78, 0x25, 0x2e, 0x1c, 0xa6, 0xb4, 0xc6, 0xe8, 0xdd, 0x74, 0x1f, 0x4b, 0xbd, 0x8b, 0x8a,
    0x70, 0x3e, 0xb5, 0x66, 0x48, 0x03, 0xf6, 0x0e, 0x61, 0x35, 0x57, 0xb9, 0x86, 0xc1, 0x1d, 0x9e,
    0xe1, 0xf8, 0x98, 0x11, 0x69, 0xd9, 0x8e, 0x94, 0x9b, 0x1e, 0x87, 0xe9, 0xce, 0x55, 0x28, 0xdf,
    0x8c, 0xa1, 0x89, 0x0d, 0xbf, 0xe6, 0x42, 0x68, 0x41, 0x99, 0x2d, 0x0f, 0xb0, 0x54, 0xbb, 0x16]

def invSboxTable : List (Fin 256) := [
    0x52, 0x09, 0x6a, 0xd5, 0x30, 0x36, 0xa5, 0x38, 0xbf, 0x40, 0xa3, 0x9e, 0x81, 0xf3, 0xd7, 0xfb,
    0x7c, 0xe3, 0x39, 0x82, 0x9b, 0x2f, 0xff, 0x87, 0x34, 0x8e, 0x43, 0x44, 0xc4, 0xde, 0xe9, 0xcb,
    0x54, 0x7b, 0x94, 0x32, 0xa6, 0xc2, 0x23, 0x3d, 0xee, 0x4c, 0x95, 0x0b, 0x42, 0xfa, 0xc3, 0x4e,
    0x08, 0x2e, 0xa1, 0x66, 0x28, 0xd9, 0x24, 0xb2, 0x76, 0x5b, 0xa2, 0x49, 0x6d, 0x8b, 0xd1, 0x25,
    0x72, 0xf8, 0xf6, 0x64, 0x86, 0x68, 0x98, 0x16, 0xd4, 0xa4, 0x5c, 0xcc, 0x5d, 0x65, 0xb6, 0x92,
    0x6c, 0x70, 0x48, 0x50, 0xfd, 0xed, 0xb9, 0xda, 0x5e, 0x15, 0x46, 0x57, 0xa7, 0x8d, 0x9d, 0x84,
    0x90, 0xd8, 0xab, 0x00, 0x8c, 0xbc, 0xd3, 0x0a, 0xf7, 0xe4, 0x58, 0x05, 0xb8, 0xb3, 0x45, 0x06,
    0xd0, 0x2c, 0x1e, 0x8f, 0xca, 0x3f, 0x0f, 0x02, 0xc1, 0xaf, 0xbd, 0x03, 0x01, 0x13, 0x8a, 0x6b,
    0x3a, 0x91, 0x11, 0x41, 0x4f, 0x67, 0xdc, 0xea, 0x97, 0xf2, 0xcf, 0xce, 0xf0, 0xb4, 0xe6, 0x73,
    0x96, 0xac, 0x74, 0x22, 0xe7, 0xad, 0x35, 0x85, 0xe2, 0xf9, 0x37, 0xe8, 0x1c, 0x75, 0xdf, 0x6e,
    0x47, 0xf1, 0x1a, 0x71, 0x1d, 0x29, 0xc5, 0x89, 0x6f, 0xb7, 0x62, 0x0e, 0xaa, 0x18, 0xbe, 0x1b,
    0xfc, 0x56, 0x3e, 0x4b, 0xc6, 0xd2, 0x79, 0x20, 0x9a, 0xdb, 0xc0, 0xfe, 0x78, 0xcd, 0x5a, 0xf4,
    0x1f, 0xdd, 0xa8, 0x33, 0x88, 0x07, 0xc7, 0x31, 0xb1, 0x12, 0x10, 0x59, 0x27, 0x80, 0xec, 0x5f,
    0x60, 0x51, 0x7f, 0xa9, 0x19, 0xb5, 0x4a, 0x0d, 0x2d, 0xe5, 0x7a, 0x9f, 0x93, 0xc9, 0x9c, 0xef,
    0xa0, 0xe0, 0x3b, 0x4d, 0xae, 0x2a, 0xf5, 0xb0, 0xc8, 0xeb, 0xbb, 0x3c, 0x83, 0x53, 0x99, 0x61,
    0x17, 0x2b, 0x04, 0x7e, 0xba, 0x77, 0xd6, 0x26, 0xe1, 0x69, 0x14, 0x63, 0x55, 0x21, 0x0c, 0x7d]

/-- S-box lookup. -/
def sbox (x : Fin 256) : Fin 256 := sboxTable.getD x.val 0

/-- Inverse S-box lookup. -/
def invSbox (x : Fin 256) : Fin 256 := invSboxTable.getD x.val 0

/-- One 16-byte AES state/block, column-major as in FIPS-197 (`b0..b3` is the
first column). -/
structure AESBlock where
  b0 : Fin 256
  b1 : Fin 256
  b2 : Fin 256
  b3 : Fin 256
  b4 : Fin 256
  b5 : Fin 256
  b6 : Fin 256
  b7 : Fin 256
  b8 : Fin 256
  b9 : Fin 256
  b10 : Fin 256
  b11 : Fin 256
  b12 : Fin 256
  b13 : Fin 256
  b14 : Fin 256
  b15 : Fin 256

def zeroBlock : AESBlock := ⟨0,0,0,0,0,0,0,0,0,0,0,0,0,0,0,0⟩

def blockXor (s k : AESBlock) : AESBlock :=
  ⟨bxor s.b0 k.b0, bxor s.b1 k.b1, bxor s.b2 k.b2, bxor s.b3 k.b3,
   bxor s.b4 k.b4, bxor s.b5 k.b5, bxor s.b6 k.b6, bxor s.b7 k.b7,
   bxor s.b8 k.b8, bxor s.b9 k.b9, bxor s.b10 k.b10, bxor s.b11 k.b11,
   bxor s.b12 k.b12, bxor s.b13 k.b13, bxor s.b14 k.b14, bxor s.b15 k.b15⟩

def subBytes (s : AESBlock) : AESBlock :=
  ⟨sbox s.b0, sbox s.b1, sbox s.b2, sbox s.b3, sbox s.b4, sbox s.b5, sbox s.b6, sbox s.b7,
   sbox s.b8, sbox s.b9, sbox s.b10, sbox s.b11, sbox s.b12, sbox s.b13, sbox s.b14, sbox s.b15⟩

def invSubBytes (s : AESBlock) : AESBlock :=
  ⟨invSbox s.b0, invSbox s.b1, invSbox s.b2, invSbox s.b3,
   invSbox s.b4, invSbox s.b5, invSbox s.b6, invSbox s.b7,
   invSbox s.b8, invSbox s.b9, invSbox s.b10, invSbox s.b11,
   invSbox s.b12, invSbox s.b13, invSbox s.b14, invSbox s.b15⟩

/-- Row `r` of the state rotates left by `r` (FIPS-197 §5.1.2). -/
def shiftRows (s : AESBlock) : AESBlock :=
  ⟨s.b0, s.b5, s.b10, s.b15,
   s.b4, s.b9, s.b14, s.b3,
   s.b8, s.b13, s.b2, s.b7,
   s.b12, s.b1, s.b6, s.b11⟩

def invShiftRows (s : AESBlock) : AESBlock :=
  ⟨s.b0, s.b13, s.b10, s.b7,
   s.b4, s.b1, s.b14, s.b11,
   s.b8, s.b5, s.b2, s.b15,
   s.b12, s.b9, s.b6, s.b3⟩

/-- One 4-byte column of the state. -/
structure W4 where
  a : Fin 256
  b : Fin 256
  c : Fin 256
  d : Fin 256

def col0 (s : AESBlock) : W4 := ⟨s.b0, s.b1, s.b2, s.b3⟩

def col1 (s : AESBlock) : W4 := ⟨s.b4, s.b5, s.b6, s.b7⟩

def col2 (s : AESBlock) : W4 := ⟨s.b8, s.b9, s.b10, s.b11⟩

def col3 (s : AESBlock) : W4 := ⟨s.b12, s.b13, s.b14, s.b15⟩

def blockOfCols (c0 c1 c2 c3 : W4) : AESBlock :=
  ⟨c0.a, c0.b, c0.c, c0.d, c1.a, c1.b, c1.c, c1.d,
   c2.a, c2.b, c2.c, c2.d, c3.a, c3.b, c3.c, c3.d⟩

/-- MixColumns on one column (FIPS-197 §5.1.3). -/
def mixColW (w : W4) : W4 :=
  ⟨bxor (bxor (g2 w.a) (g3 w.b)) (bxor w.c w.d),
   bxor (bxor w.a (g2 w.b)) (bxor (g3 w.c) w.d),
   bxor (bxor w.a w.b) (bxor (g2 w.c) (g3 w.d)),
   bxor (bxor (g3 w.a) w.b) (bxor w.c (g2 w.d))⟩

/-- Inverse MixColumns on one column (FIPS-197 §5.3.3). -/
def invMixColW (w : W4) : W4 :=
  ⟨bxor (bxor (g14 w.a) (g11 w.b)) (bxor (g13 w.c) (g9 w.d)),
   bxor (bxor (g9 w.a) (g14 w.b)) (bxor (g11 w.c) (g13 w.d)),
   bxor (bxor (g13 w.a) (g9 w.b)) (bxor (g14 w.c) (g11 w.d)),
   bxor (bxor (g11 w.a) (g13 w.b)) (bxor (g9 w.c) (g14 w.d))⟩

def mixColumns (s : AESBlock) : AESBlock :=
  blockOfCols (mixColW (col0 s)) (mixColW (col1 s)) (mixColW (col2 s)) (mixColW (col3 s))

def invMixColumns (s : AESBlock) : AESBlock :=
  blockOfCols (invMixColW (col0 s)) (invMixColW (col1 s)) (invMixColW (col2 s)) (invMixColW (col3 s))

def w4xor (x y : W4) : W4 := ⟨bxor x.a y.a, bxor x.b y.b, bxor x.c y.c, bxor x.d y.d⟩

def subWord (x : W4) : W4 := ⟨sbox x.a, sbox x.b, sbox x.c, sbox x.d⟩

def rotWord (x : W4) : W4 := ⟨x.b, x.c, x.d, x.a⟩

/-- Round constant word for round `i` (AES-256 uses `i = 1..7`). -/
def rconW (i : Nat) : W4 :=
  ⟨[0x00, 0x01, 0x02, 0x04, 0x08, 0x10, 0x20, 0x40].getD i 0, 0, 0, 0⟩

/-- Next key-schedule word (FIPS-197 §5.2, `Nk = 8`): `acc` holds the words
generated so far, most recent first; `i` is the index of the word being
generated. -/
def ksNext (acc : List W4) (i : Nat) : W4 :=
  let temp := acc.getD 0 ⟨0, 0, 0, 0⟩
  let w8 := acc.getD 7 ⟨0, 0, 0, 0⟩
  let t :=
    if i % 8 == 0 then w4xor (subWord (rotWord temp)) (rconW (i / 8))
    else if i % 8 == 4 then subWord temp
    else temp
  w4xor w8 t

/-- Generate `fuel` further key-schedule words starting at index `i`. -/
def ksGen : Nat → Nat → List W4 → List W4
  | 0, _, acc => acc.reverse
  | fuel + 1, i, acc => ksGen fuel (i + 1) (ksNext acc i :: acc)

/-- The expanded key: first round key, the 13 middle round keys, last round
key. -/
structure KeySchedule where
  first : AESBlock
  middle : List AESBlock
  last : AESBlock

/-- Pack consecutive word pairs-of-pairs into round-key blocks (each round
key is 4 consecutive schedule words, words being columns). -/
def wordsToBlocks : List W4 → List AESBlock
  | w0 :: w1 :: w2 :: w3 :: rest =>
    ⟨w0.a, w0.b, w0.c, w0.d, w1.a, w1.b, w1.c, w1.d,
     w2.a, w2.b, w2.c, w2.d, w3.a, w3.b, w3.c, w3.d⟩ :: wordsToBlocks rest
  | _ => []

/-- AES-256 key expansion from 32 key bytes: 8 initial words, 52 generated
words, 15 round keys. `none` when the key is not exactly 32 bytes
(`createCipheriv` throws on a wrong-size key). -/
def expandKey256 (key : List (Fin 256)) : Option KeySchedule :=
  match key with
  | [k0, k1, k2, k3, k4, k5, k6, k7, k8, k9, k10, k11, k12, k13, k14, k15,
     k16, k17, k18, k19, k20, k21, k22, k23, k24, k25, k26, k27, k28, k29, k30, k31] =>
    let initial : List W4 :=
      [⟨k0, k1, k2, k3⟩, ⟨k4, k5, k6, k7⟩, ⟨k8, k9, k10, k11⟩, ⟨k12, k13, k14, k15⟩,
       ⟨k16, k17, k18, k19⟩, ⟨k20, k21, k22, k23⟩, ⟨k24, k25, k26, k27⟩, ⟨k28, k29, k30, k31⟩]
    let words := ksGen 52 8 initial.reverse
    match wordsToBlocks words with
    | rk0 :: rest =>
      match rest.getLast? with
      | some rkLast => some ⟨rk0, rest.dropLast, rkLast⟩
      | none => none
    | [] => none
  | _ => none

/-- One middle encryption round. -/
def encRound (st : AESBlock) (k : AESBlock) : AESBlock :=
  blockXor (mixColumns (shiftRows (subBytes st))) k

/-- The matching inverse round. -/
def decRound (k : AESBlock) (st : AESBlock) : AESBlock :=
  invSubBytes (invShiftRows (invMixColumns (blockXor st k)))

def encryptMiddle (ks : List AESBlock) (st : AESBlock) : AESBlock :=
  match ks with
  | [] => st
  | k :: rest => encryptMiddle rest (encRound st k)

def decryptMiddle (ks : List AESBlock) (st : AESBlock) : AESBlock :=
  match ks with
  | [] => st
  | k :: rest => decRound k (decryptMiddle rest st)

/-- AES block encryption (FIPS-197 §5.1). -/
def encryptBlock (ks : KeySchedule) (b : AESBlock) : AESBlock :=
  blockXor (shiftRows (subBytes (encryptMiddle ks.middle (blockXor b ks.first)))) ks.last

/-- AES block decryption: the mathematical inverse of `encryptBlock` with the
same round keys (FIPS-197 §5.3). -/
def decryptBlock (ks : KeySchedule) (b : AESBlock) : AESBlock :=
  blockXor (decryptMiddle ks.middle (invSubBytes (invShiftRows (blockXor b ks.last)))) ks.first

/-- CBC encryption chaining: each plaintext block is xored with the previous
ciphertext block (initially the IV) before encryption. -/
def cbcEncryptBlocks (ks : KeySchedule) (prev : AESBlock) : List AESBlock → List AESBlock
  | [] => []
  | p :: rest =>
    let c := encryptBlock ks (blockXor p prev)
    c :: cbcEncryptBlocks ks c rest

/-- CBC decryption chaining. -/
def cbcDecryptBlocks (ks : KeySchedule) (prev : AESBlock) : List AESBlock → List AESBlock
  | [] => []
  | c :: rest => blockXor (decryptBlock ks c) prev :: cbcDecryptBlocks ks c rest

/-- Split a byte string into 16-byte blocks (`none` when the length is not a
multiple of 16). -/
def bytesToBlocks : List (Fin 256) → Option (List AESBlock)
  | [] => some []
  | x0 :: x1 :: x2 :: x3 :: x4 :: x5 :: x6 :: x7 ::
    x8 :: x9 :: x10 :: x11 :: x12 :: x13 :: x14 :: x15 :: rest =>
    (bytesToBlocks rest).map
      (⟨x0, x1, x2, x3, x4, x5, x6, x7, x8, x9, x10, x11, x12, x13, x14, x15⟩ :: ·)
  | _ => none

def blockToBytes (b : AESBlock) : List (Fin 256) :=
  [b.b0, b.b1, b.b2, b.b3, b.b4, b.b5, b.b6, b.b7,
   b.b8, b.b9, b.b10, b.b11, b.b12, b.b13, b.b14, b.b15]

def blocksToBytes (bs : List AESBlock) : List (Fin 256) :=
  match bs with
  | [] => []
  | b :: rest => blockToBytes b ++ blocksToBytes rest

/-- Byte of a natural below 256 (all call sites stay below 256; the modulus
only discharges the bound). -/
def byteOfNat (n : Nat) : Fin 256 := ⟨n % 256, Nat.mod_lt _ (by norm_num)⟩

/-- PKCS#7: always append `p ∈ 1..16` copies of the byte `p`. -/
def pad16 (b : List (Fin 256)) : List (Fin 256) :=
  let p := 16 - b.length % 16
  b ++ List.replicate p (byteOfNat p)

/-- PKCS#7 removal with full validity check (as the OpenSSL `final()` does:
throws — here `none` — on absent/invalid padding). -/
def unpad16 (b : List (Fin 256)) : Option (List (Fin 256)) :=
  match b.getLast? with
  | none => none
  | some last =>
    let p := last.val
    if p == 0 || 16 < p || b.length < p then none
    else if (b.drop (b.length - p)).all (· == last) then some (b.take (b.length - p))
    else none

/-- One 16-byte IV block from exactly 16 bytes. -/
def ivBlock : List (Fin 256) → Option AESBlock
  | [x0, x1, x2, x3, x4, x5, x6, x7, x8, x9, x10, x11, x12, x13, x14, x15] =>
    some ⟨x0, x1, x2, x3, x4, x5, x6, x7, x8, x9, x10, x11, x12, x13, x14, x15⟩
  | _ => none

/-- Model of `crypto.createCipheriv` with `aes-256-cbc` + `update`/`final`:
PKCS#7-pad then CBC-encrypt.  `none` when key/IV have the wrong size. -/
def aesCbcEncrypt (key iv content : List (Fin 256)) : Option (List (Fin 256)) :=
  match expandKey256 key, ivBlock iv with
  | some ks, some ivb =>
    match bytesToBlocks (pad16 content) with
    | some blocks => some (blocksToBytes (cbcEncryptBlocks ks ivb blocks))
    | none => none
  | _, _ => none

/-- Model of `crypto.createDecipheriv` with `aes-256-cbc` + `update`/`final`:
CBC-decrypt then strip and verify PKCS#7 padding.  `none` (a thrown crypto
error) on a wrong-size key/IV, a ciphertext that is not a positive multiple
of 16 bytes, or bad padding. -/
def aesCbcDecrypt (key iv ct : List (Fin 256)) : Option (List (Fin 256)) :=
  match expandKey256 key, ivBlock iv with
  | some ks, some ivb =>
    match bytesToBlocks ct with
    | some blocks => unpad16 (blocksToBytes (cbcDecryptBlocks ks ivb blocks))
    | none => none
  | _, _ => none

/-- Base64 value of one character. -/
def b64Val (c : Char) : Option Nat :=
  if 'A' ≤ c && c ≤ 'Z' then some (c.toNat - 'A'.toNat)
  else if 'a' ≤ c && c ≤ 'z' then some (c.toNat - 'a'.toNat + 26)
  else if '0' ≤ c && c ≤ '9' then some (c.toNat - '0'.toNat + 52)
  else if c = '+' then some 62
  else if c = '/' then some 63
  else none

/-- Base64 decoding of 4-character groups (standard alphabet with `=`
padding; `Buffer.from(s, base64)`). -/
def b64Groups : List Char → Option (List (Fin 256))
  | [] => some []
  | c1 :: c2 :: c3 :: c4 :: rest =>
    match b64Val c1, b64Val c2 with
    | some v1, some v2 =>
      if c3 = '=' && c4 = '=' && rest.isEmpty then
        some [byteOfNat (v1 * 4 + v2 / 16)]
      else if c4 = '=' && rest.isEmpty then
        match b64Val c3 with
        | some v3 => some [byteOfNat (v1 * 4 + v2 / 16), byteOfNat (v2 % 16 * 16 + v3 / 4)]
        | none => none
      else
        match b64Val c3, b64Val c4 with
        | some v3, some v4 =>
          (b64Groups rest).map
            (fun bs => byteOfNat (v1 * 4 + v2 / 16) :: byteOfNat (v2 % 16 * 16 + v3 / 4)
              :: byteOfNat (v3 % 4 * 64 + v4) :: bs)
        | _, _ => none
    | _, _ => none
  | _ => none

def base64Decode (s : String) : Option (List (Fin 256)) :=
  b64Groups s.data

/-- Model of `_validateEncryptionDetails(details)` (lines 124-146): require a truthy
`details`, `details.encryptionDetails` and `details.url`
(`DOWNLOAD_INFORMATION_MISSING`), then `standard === "AES"`
(`UNKNOWN_ENCRYPTION_STANDARD`), then a declared compression, if truthy,
strictly equal to `"GZIP"` (`UNKNOWN_ZIP_STANDARD`). -/
def validateEncryptionDetails (details : Json) : Except SPError Unit :=
  if !jsTruthy details || !truthyOpt (jsGetOpt details "encryptionDetails")
      || !truthyOpt (jsGetOpt details "url") then
    .error (.custom "DOWNLOAD_INFORMATION_MISSING" (.str "Please provide encryptionDetails and url") .null)
  else if !isStrEq (jsGetOpt (jsGetD details "encryptionDetails") "standard") "AES" then
    .error (.custom "UNKNOWN_ENCRYPTION_STANDARD"
      (.str ("Cannot decrypt " ++ fieldTestString (jsGetD details "encryptionDetails") "standard"
        ++ ", expecting AES")) .null)
  else if truthyOpt (jsGetOpt details "compressionAlgorithm")
      && !isStrEq (jsGetOpt details "compressionAlgorithm") "GZIP" then
    .error (.custom "UNKNOWN_ZIP_STANDARD"
      (.str ("Cannot unzip " ++ fieldTestString details "compressionAlgorithm"
        ++ ", expecting GZIP")) .null)
  else .ok ()

/-- Model of `_validateUpOrDownloadSuccess(res, request_type)` (lines 148-171): on a
non-200 status, XML-parse the body; an `Error` envelope is rethrown as
`CustomError(Code, Message)`, otherwise a generic `<type>_ERROR` carrying
the (raw or parsed) body. -/
def validateUpOrDownloadSuccess (res : TransferResponse) (request_type : String) : Except SPError Unit :=
  if res.statusCode != 200 then
    match res.xmlBody with
    | none => .error (.custom (request_type ++ "_ERROR") .null .null)
    | some parsed =>
      if jsTruthy parsed && truthyOpt (jsGetOpt parsed "Error") then
        .error (.custom (jsToString (jsGetD (jsGetD parsed "Error") "Code"))
          (jsGetD (jsGetD parsed "Error") "Message") .null)
      else .error (.custom (request_type ++ "_ERROR") parsed .null)
  else .ok ()

/-- The `key`/`initializationVector` members, base64-decoded
(`Buffer.from(x, base64)`, lines 403-404); a non-string member makes
`Buffer.from` throw. -/
def encBytes (details : Json) (member : String) : Option (List (Fin 256)) :=
  match jsGetOpt (jsGetD details "encryptionDetails") member with
  | some (.str s) => base64Decode s
  | _ => none

/-- Result of a transfer-codec call (`download`/`upload` never touch the
session, so no state is carried). -/
structure TransferOutcome (α : Type) where
  result : Except SPError α
  world : World

/-- Model of `download(details, options)` (lines 390-450) restricted to the
claim-relevant surface: `options.unzip` (default `true` via the
`Object.assign` of line 391).  The `charset`/`json`/`file` options invoke the
external `iconv`/`xml_parser`/`csvtojson`/`fs` collaborators and no claim
concerns them, so the returned "content" is the decrypted (and, when
compression is declared and `unzip` is true, gunzipped) byte string; the
default `decrypted.toString()` text decoding carries those bytes unchanged.
`gunzip` is the node `zlib.gunzip` (external), passed as a function
(`none` = the callback error, rejected to the caller). -/
def download (gunzip : List (Fin 256) → Option (List (Fin 256)))
    (details : Json) (optUnzip : Option Bool) (w : World) : TransferOutcome (List (Fin 256)) :=
  let unzip := optUnzip.getD true
  match validateEncryptionDetails details with
  | .error e => ⟨.error e, w⟩
  | .ok _ =>
    match World.popTransfer w .transferGet with
    | (none, w1) => ⟨.error (.js "no response from transfer url"), w1⟩
    | (some res, w1) =>
      match validateUpOrDownloadSuccess res "DOWNLOAD" with
      | .error e => ⟨.error e, w1⟩
      | .ok _ =>
        match encBytes details "key", encBytes details "initializationVector" with
        | some key, some iv =>
          match aesCbcDecrypt key iv res.chunks with
          | none => ⟨.error (.js "decipher error"), w1⟩
          | some decrypted =>
            if truthyOpt (jsGetOpt details "compressionAlgorithm") && unzip then
              match gunzip decrypted with
              | some unzipped => ⟨.ok unzipped, w1⟩
              | none => ⟨.error (.js "gunzip error"), w1⟩
            else ⟨.ok decrypted, w1⟩
        | _, _ => ⟨.error (.js "Buffer.from error"), w1⟩

/-- The `feed` argument of `upload`.  `content` is the feed body as the byte
sequence of the JS string (`cipher.update(string)` consumes its encoded
bytes); an empty string is falsy. -/
structure Feed where
  content : Option (List (Fin 256)) := none
  file : Option String := none
  contentType : Option String := none

def feedContentTruthy (f : Feed) : Bool :=
  match f.content with
  | some b => !b.isEmpty
  | none => false

def feedFileTruthy (f : Feed) : Bool :=
  match f.file with
  | some p => p != ""
  | none => false

def feedContentTypeTruthy (f : Feed) : Bool :=
  match f.contentType with
  | some c => c != ""
  | none => false

/-- Model of `_readFile(file, contentType)` (lines 109-122): the filesystem is the
`files` table of the oracle; the charset handling (including the
ISO-8859-1→latin1 alias) decodes and the upload path re-encodes, carried
here as the stored bytes. -/
def readFileW (w : World) (path : String) : Option (List (Fin 256)) × World :=
  (assocGet w.files path, { w with trace := w.trace ++ [.fileRead path] })

/-- Model of `upload(details, feed)` (lines 459-492): validate encryption details,
require `feed.content` or `feed.file` (`NO_FEED_CONTENT_PROVIDED`; an empty
string is falsy) and `feed.contentType` (`NO_FEED_CONTENT_TYPE_PROVIDED`),
resolve the content (`feed.content || readFile(feed.file)`), AES-256-CBC
encrypt it, PUT it to the presigned URL, classify, return `{success:true}`. -/
def upload (details : Json) (feed : Option Feed) (w : World) : TransferOutcome Json :=
  match validateEncryptionDetails details with
  | .error e => ⟨.error e, w⟩
  | .ok _ =>
    match feed with
    | none =>
      ⟨.error (.custom "NO_FEED_CONTENT_PROVIDED"
        (.str "Please provide content (string) or file (absolute path) of feed.") .null), w⟩
    | some f =>
      if !feedContentTruthy f && !feedFileTruthy f then
        ⟨.error (.custom "NO_FEED_CONTENT_PROVIDED"
          (.str "Please provide content (string) or file (absolute path) of feed.") .null), w⟩
      else if !feedContentTypeTruthy f then
        ⟨.error (.custom "NO_FEED_CONTENT_TYPE_PROVIDED"
          (.str "Please provide contentType of feed (should be identical to the contentType used in createFeedDocument operation).") .null), w⟩
      else
        match (if feedContentTruthy f then (f.content, w)
               else readFileW w (f.file.getD "") : Option (List (Fin 256)) × World) with
        | (none, w1) => ⟨.error (.js "ENOENT: no such file"), w1⟩
        | (some feed_content, w1) =>
          match encBytes details "key", encBytes details "initializationVector" with
          | some key, some iv =>
            match aesCbcEncrypt key iv feed_content with
            | none => ⟨.error (.js "cipher error"), w1⟩
            | some encrypted =>
              match World.popTransfer w1 (.transferPut encrypted) with
              | (none, w2) => ⟨.error (.js "no response from transfer url"), w2⟩
              | (some res, w2) =>
                match validateUpOrDownloadSuccess res "UPLOAD" with
                | .error e => ⟨.error e, w2⟩
                | .ok _ => ⟨.ok (.obj [("success", .bool true)]), w2⟩
          | _, _ => ⟨.error (.js "Buffer.from error"), w1⟩

/-! ### Combination helpers for the MixColumns inverse proof: `fc0 x` is the
contribution of one input byte to the output slot it survives at, `fc1`-`fc3`
the contributions that must cancel (rows of the product of the two
circulant MixColumns matrices). -/

def fc0 (x : Fin 256) : Fin 256 := bxor (bxor (g14 (g2 x)) (g11 x)) (bxor (g13 x) (g9 (g3 x)))

def fc1 (x : Fin 256) : Fin 256 := bxor (bxor (g14 (g3 x)) (g11 (g2 x))) (bxor (g13 x) (g9 x))

def fc2 (x : Fin 256) : Fin 256 := bxor (bxor (g14 x) (g11 (g3 x))) (bxor (g13 (g2 x)) (g9 x))

def fc3 (x : Fin 256) : Fin 256 := bxor (bxor (g14 x) (g11 x)) (bxor (g13 (g3 x)) (g9 (g2 x)))

/-! ### Concrete fixtures used by the per-claim scenario theorems. -/

/-- A present set of role credentials. -/
def roleCredsFx : RoleCredentials := ⟨.str "roleid", .str "rolesecret", .str "roletoken"⟩

/-- Options with token auto-refresh off (throttle auto-retry on). -/
def optionsAutoOffFx : SPOptions :=
  { auto_request_tokens := false, auto_request_throttled := true
    use_sandbox := false, only_grantless_operations := false }

/-- Options with both auto behaviours on (the defaults). -/
def optionsAutoOnFx : SPOptions := {}

/-- A session holding a token and role credentials, auto-refresh off. -/
def stateAutoOffFx : SPState :=
  { region := "na", refresh_token := some "refresh0", access_token := some (.str "token0")
    role_credentials := some roleCredsFx, grantless_tokens := [], options := optionsAutoOffFx }

/-- A session holding a token and role credentials, auto-refresh on. -/
def stateAutoOnFx : SPState :=
  { region := "na", refresh_token := some "refresh0", access_token := some (.str "token0")
    role_credentials := some roleCredsFx, grantless_tokens := [], options := optionsAutoOnFx }

/-- A one-operation catalog: `getOrders`, no scope, restore rate `rr`. -/
def catalogFx (rr : Rat) : Catalog :=
  [("getOrders", fun r => { r with method := "GET", restore_rate := rr })]

/-- The caller request for the fixture operation. -/
def reqFx : ReqParams := { operation := some "getOrders" }

/-- C1: a single 200 response whose body has `pagination` and `payload`
sections and no `errors`. -/
def worldC1 (pag pay : List (String × Json)) : World :=
  { apiResponses := [⟨200, some (.obj [("pagination", .obj pag), ("payload", .obj pay)])⟩] }

/-- C2: a 403 `Unauthorized` "access token ... expired" response, a token
endpoint answering with `newtok`, then a 200 response with payload `pay`. -/
def worldC2 (newtok : String) (pay : List (String × Json)) : World :=
  { tokenResponses := [⟨200, some (.obj [("access_token", .str newtok)])⟩]
    apiResponses :=
      [⟨403, some (.obj [("errors",
        .arr [.obj [("code", .str "Unauthorized"), ("details", .str "access token for request is expired")]])])⟩,
       ⟨200, some (.obj [("payload", .obj pay)])⟩] }

/-- C4: a 429 `QuotaExceeded` response, then a 200 `{payload:{ok:true}}`. -/
def worldC4 : World :=
  { apiResponses :=
      [⟨429, some (.obj [("errors", .arr [.obj [("code", .str "QuotaExceeded")]])])⟩,
       ⟨200, some (.obj [("payload", .obj [("ok", .bool true)])])⟩] }

/-- C3 counterexample: the token endpoint answers with a structured OAuth
error. -/
def worldC3 : World :=
  { tokenResponses := [⟨400, some (.obj [("error", .str "invalid_grant"),
      ("error_description", .str "The request has an invalid grant parameter")])⟩] }

/-- C3 counterexample session: auto-refresh on, no access token, role
credentials present. -/
def stateC3 : SPState :=
  { region := "na", refresh_token := some "refresh0", access_token := none
    role_credentials := some roleCredsFx, grantless_tokens := [], options := optionsAutoOnFx }

/-- C6 counterexample: an encryption descriptor with a non-AES standard but
no `url` member. -/
def detailsNoUrl : Json := .obj [("encryptionDetails", .obj [("standard", .str "RSA")])]

/-- Base64 of 32 zero bytes. -/
def keyZeroB64 : String := "AAAAAAAAAAAAAAAAAAAAAAAAAAAAAAAAAAAAAAAAAAA="

/-- Base64 of 16 zero bytes. -/
def ivZeroB64 : String := "AAAAAAAAAAAAAAAAAAAAAA=="

/-- A transfer descriptor: presigned url + AES encryption details with the
given base64 key and IV, plus optional `compressionAlgorithm: GZIP`. -/
def transferDetails (keyB64 ivB64 : String) (gzipDeclared : Bool) : Json :=
  .obj ([("url", .str "https://presigned.example/doc")] ++
    (if gzipDeclared then [("compressionAlgorithm", .str "GZIP")] else []) ++
    [("encryptionDetails", .obj
      [("standard", .str "AES"), ("key", .str keyB64), ("initializationVector", .str ivB64)])])

/-- A 200 transfer response carrying `chunks`. -/
def transferOkResponse (chunks : List (Fin 256)) : TransferResponse :=
  ⟨200, chunks, none, "text/plain"⟩

/-- A world whose next transfer request is answered 200 with `chunks`. -/
def worldTransfer (chunks : List (Fin 256)) : World :=
  { transferResponses := [transferOkResponse chunks] }

/-- C10: a world holding one readable file and a 200 transfer PUT response. -/
def worldC10 (bytes : List (Fin 256)) : World :=
  { files := [("/tmp/feed.xml", bytes)], transferResponses := [transferOkResponse []] }

/-- Agreement of the immutable configuration fields of two session states
(used by the frame theorems: nothing in the client ever writes these). -/
def cfgEq (sNew sOld : SPState) : Prop :=
  sNew.region = sOld.region ∧ sNew.refresh_token = sOld.refresh_token
    ∧ sNew.options = sOld.options

/-! ## Theorems. First the AES-256-CBC inverse development, then the
association-list (`Object.assign`) lemmas, then the per-claim theorems. -/

theorem bxor_assoc (a b c : Fin 256) : bxor (bxor a b) c = bxor a (bxor b c) :=
  Fin.ext (Nat.xor_assoc a.val b.val c.val)

theorem bxor_comm (a b : Fin 256) : bxor a b = bxor b a :=
  Fin.ext (Nat.xor_comm a.val b.val)

theorem natXor_left_comm (a b c : Nat) : a ^^^ (b ^^^ c) = b ^^^ (a ^^^ c) := by
  rw [← Nat.xor_assoc, Nat.xor_comm a b, Nat.xor_assoc]

theorem bxor_left_comm (a b c : Fin 256) : bxor a (bxor b c) = bxor b (bxor a c) :=
  Fin.ext (natXor_left_comm a.val b.val c.val)

theorem bxor_cancel (a b : Fin 256) : bxor (bxor a b) b = a :=
  Fin.ext (Nat.xor_cancel_right b.val a.val)

theorem bxor_zero_right (a : Fin 256) : bxor a 0 = a :=
  Fin.ext (Nat.xor_zero a.val)

theorem bxor_zero_left (a : Fin 256) : bxor 0 a = a :=
  Fin.ext (Nat.zero_xor a.val)

theorem natMul2_xor (x y : Nat) : (x ^^^ y) * 2 = x * 2 ^^^ y * 2 := by
  have h : ∀ z : Nat, z * 2 = z <<< 1 := fun z => by simp [Nat.shiftLeft_eq]
  rw [h, h, h]
  apply Nat.eq_of_testBit_eq
  intro i
  simp only [Nat.testBit_shiftLeft, Nat.testBit_xor, Bool.and_xor_distrib_left]

theorem natMod256_xor (x y : Nat) : (x ^^^ y) % 256 = x % 256 ^^^ y % 256 := by
  have h : ∀ z : Nat, z % 256 = z % 2 ^ 8 := fun z => by norm_num
  rw [h, h, h]
  apply Nat.eq_of_testBit_eq
  intro i
  simp only [Nat.testBit_mod_two_pow, Nat.testBit_xor, Bool.and_xor_distrib_left]

theorem natXor_pair_swap (a b c d : Nat) : (a ^^^ b) ^^^ (c ^^^ d) = (a ^^^ c) ^^^ (b ^^^ d) := by
  simp only [Nat.xor_assoc]
  rw [natXor_left_comm b c d]

/-- GF(2^8) doubling is additive (linearity of `xtime` over xor). -/
theorem xtN_xor (x y : Nat) : xtN (x ^^^ y) = xtN x ^^^ xtN y := by
  unfold xtN
  rw [natMul2_xor, natMod256_xor, Nat.testBit_xor, natXor_pair_swap]
  cases hx : x.testBit 7 <;> cases hy : y.testBit 7 <;> simp

theorem xtime_bxor (x y : Fin 256) : xtime (bxor x y) = bxor (xtime x) (xtime y) :=
  Fin.ext (xtN_xor x.val y.val)

theorem g9_bxor (x y : Fin 256) : g9 (bxor x y) = bxor (g9 x) (g9 y) := by
  simp [g9, xtime_bxor, bxor_assoc, bxor_comm, bxor_left_comm]

theorem g11_bxor (x y : Fin 256) : g11 (bxor x y) = bxor (g11 x) (g11 y) := by
  simp [g11, xtime_bxor, bxor_assoc, bxor_comm, bxor_left_comm]

theorem g13_bxor (x y : Fin 256) : g13 (bxor x y) = bxor (g13 x) (g13 y) := by
  simp [g13, xtime_bxor, bxor_assoc, bxor_comm, bxor_left_comm]

theorem g14_bxor (x y : Fin 256) : g14 (bxor x y) = bxor (g14 x) (g14 y) := by
  simp [g14, xtime_bxor, bxor_assoc, bxor_comm, bxor_left_comm]

set_option maxRecDepth 20000 in
/-- Composed MixColumns coefficient on the surviving input: the identity. -/
theorem fc0_eq : ∀ x : Fin 256, fc0 x = x := by decide

set_option maxRecDepth 20000 in
/-- Composed MixColumns coefficients that cancel. -/
theorem fc1_eq : ∀ x : Fin 256, fc1 x = 0 := by decide

set_option maxRecDepth 20000 in
theorem fc2_eq : ∀ x : Fin 256, fc2 x = 0 := by decide

set_option maxRecDepth 20000 in
theorem fc3_eq : ∀ x : Fin 256, fc3 x = 0 := by decide

theorem invMixColW_mixColW (w : W4) : invMixColW (mixColW w) = w := by
  cases w with
  | mk a0 a1 a2 a3 =>
    have h0 : bxor (bxor (fc0 a0) (fc1 a1)) (bxor (fc2 a2) (fc3 a3)) = a0 := by
      simp only [fc0_eq, fc1_eq, fc2_eq, fc3_eq, bxor_zero_left, bxor_zero_right]
    have h1 : bxor (bxor (fc3 a0) (fc0 a1)) (bxor (fc1 a2) (fc2 a3)) = a1 := by
      simp only [fc0_eq, fc1_eq, fc2_eq, fc3_eq, bxor_zero_left, bxor_zero_right]
    have h2 : bxor (bxor (fc2 a0) (fc3 a1)) (bxor (fc0 a2) (fc1 a3)) = a2 := by
      simp only [fc0_eq, fc1_eq, fc2_eq, fc3_eq, bxor_zero_left, bxor_zero_right]
    have h3 : bxor (bxor (fc1 a0) (fc2 a1)) (bxor (fc3 a2) (fc0 a3)) = a3 := by
      simp only [fc0_eq, fc1_eq, fc2_eq, fc3_eq, bxor_zero_left, bxor_zero_right]
    rw [show invMixColW (mixColW ⟨a0, a1, a2, a3⟩)
        = ⟨bxor (bxor (fc0 a0) (fc1 a1)) (bxor (fc2 a2) (fc3 a3)),
           bxor (bxor (fc3 a0) (fc0 a1)) (bxor (fc1 a2) (fc2 a3)),
           bxor (bxor (fc2 a0) (fc3 a1)) (bxor (fc0 a2) (fc1 a3)),
           bxor (bxor (fc1 a0) (fc2 a1)) (bxor (fc3 a2) (fc0 a3))⟩ from by
      simp [mixColW, invMixColW, fc0, fc1, fc2, fc3,
        g9_bxor, g11_bxor, g13_bxor, g14_bxor, bxor_assoc, bxor_comm, bxor_left_comm]]
    rw [h0, h1, h2, h3]

set_option maxRecDepth 40000 in
/-- The inverse S-box inverts the S-box (also certifies both tables). -/
theorem invSbox_sbox : ∀ x : Fin 256, invSbox (sbox x) = x := by decide

theorem invSubBytes_subBytes (s : AESBlock) : invSubBytes (subBytes s) = s := by
  cases s
  simp only [subBytes, invSubBytes, invSbox_sbox]

theorem invShiftRows_shiftRows (s : AESBlock) : invShiftRows (shiftRows s) = s := by
  cases s
  rfl

theorem blockXor_cancel (s k : AESBlock) : blockXor (blockXor s k) k = s := by
  cases s
  cases k
  simp only [blockXor, bxor_cancel]

theorem invMixColumns_mixColumns (s : AESBlock) : invMixColumns (mixColumns s) = s := by
  cases s with
  | mk b0 b1 b2 b3 b4 b5 b6 b7 b8 b9 b10 b11 b12 b13 b14 b15 =>
    show invMixColumns (blockOfCols (mixColW ⟨b0, b1, b2, b3⟩) (mixColW ⟨b4, b5, b6, b7⟩)
      (mixColW ⟨b8, b9, b10, b11⟩) (mixColW ⟨b12, b13, b14, b15⟩)) = _
    show blockOfCols (invMixColW (mixColW ⟨b0, b1, b2, b3⟩)) (invMixColW (mixColW ⟨b4, b5, b6, b7⟩))
      (invMixColW (mixColW ⟨b8, b9, b10, b11⟩)) (invMixColW (mixColW ⟨b12, b13, b14, b15⟩)) = _
    rw [invMixColW_mixColW, invMixColW_mixColW, invMixColW_mixColW, invMixColW_mixColW]
    rfl

theorem decRound_encRound (k st : AESBlock) : decRound k (encRound st k) = st := by
  unfold decRound encRound
  rw [blockXor_cancel, invMixColumns_mixColumns, invShiftRows_shiftRows, invSubBytes_subBytes]

theorem decryptMiddle_encryptMiddle (ks : List AESBlock) (st : AESBlock) :
    decryptMiddle ks (encryptMiddle ks st) = st := by
  induction ks generalizing st with
  | nil => rfl
  | cons k rest ih =>
    show decRound k (decryptMiddle rest (encryptMiddle rest (encRound st k))) = st
    rw [ih, decRound_encRound]

/-- AES block decryption inverts block encryption under any key schedule. -/
theorem decryptBlock_encryptBlock (ks : KeySchedule) (b : AESBlock) :
    decryptBlock ks (encryptBlock ks b) = b := by
  unfold decryptBlock encryptBlock
  rw [blockXor_cancel, invShiftRows_shiftRows, invSubBytes_subBytes,
    decryptMiddle_encryptMiddle, blockXor_cancel]

theorem cbcDecrypt_cbcEncrypt (ks : KeySchedule) (prev : AESBlock) (ps : List AESBlock) :
    cbcDecryptBlocks ks prev (cbcEncryptBlocks ks prev ps) = ps := by
  induction ps generalizing prev with
  | nil => rfl
  | cons p rest ih =>
    show blockXor (decryptBlock ks (encryptBlock ks (blockXor p prev))) prev
        :: cbcDecryptBlocks ks (encryptBlock ks (blockXor p prev)) (cbcEncryptBlocks ks _ rest) = _
    rw [decryptBlock_encryptBlock, blockXor_cancel, ih]

theorem bytesToBlocks_blocksToBytes (bs : List AESBlock) :
    bytesToBlocks (blocksToBytes bs) = some bs := by
  induction bs with
  | nil => rfl
  | cons b rest ih =>
    cases b
    show bytesToBlocks (_ :: _ :: _ :: _ :: _ :: _ :: _ :: _ :: _ :: _ :: _ :: _ :: _ :: _ :: _ :: _ :: blocksToBytes rest) = _
    rw [bytesToBlocks, ih]
    rfl

theorem blocksToBytes_of_bytesToBlocks (bs : List (Fin 256)) (bls : List AESBlock)
    (h : bytesToBlocks bs = some bls) : blocksToBytes bls = bs := by
  induction bs using bytesToBlocks.induct generalizing bls with
  | case1 =>
    simp only [bytesToBlocks, Option.some.injEq] at h
    subst h
    rfl
  | case2 x0 x1 x2 x3 x4 x5 x6 x7 x8 x9 x10 x11 x12 x13 x14 x15 rest ih =>
    rw [bytesToBlocks] at h
    cases hr : bytesToBlocks rest with
    | none => rw [hr] at h; exact absurd h (by simp)
    | some bls' =>
      rw [hr] at h
      simp only [Option.map_some', Option.some.injEq] at h
      subst h
      show blockToBytes _ ++ blocksToBytes bls' = _
      rw [ih bls' hr]
      rfl
  | case3 bs h1 h2 =>
    rw [bytesToBlocks] at h
    · exact absurd h (by simp)
    · exact h1
    · exact h2

theorem unpad16_pad16 (b : List (Fin 256)) : unpad16 (pad16 b) = some b := by
  have hmod : b.length % 16 < 16 := Nat.mod_lt _ (by norm_num)
  set p := 16 - b.length % 16 with hpdef
  have hppos : 0 < p := by omega
  have hple : p ≤ 16 := by omega
  obtain ⟨q, hq⟩ : ∃ q, p = q + 1 := ⟨p - 1, by omega⟩
  have hval : (byteOfNat p).val = p := Nat.mod_eq_of_lt (by omega)
  have hpad : pad16 b = b ++ List.replicate p (byteOfNat p) := rfl
  have hlen : (pad16 b).length = b.length + p := by
    rw [hpad]; simp
  have hlast : (pad16 b).getLast? = some (byteOfNat p) := by
    rw [hpad, hq, List.replicate_succ', ← List.append_assoc, List.getLast?_concat]
  have hsub : b.length + p - p = b.length := by omega
  have hdrop : (pad16 b).drop ((pad16 b).length - p) = List.replicate p (byteOfNat p) := by
    conv_lhs => rw [hlen, hpad]
    rw [hsub]
    exact List.drop_left b _
  have htake : (pad16 b).take ((pad16 b).length - p) = b := by
    conv_lhs => rw [hlen, hpad]
    rw [hsub]
    exact List.take_left b _
  have hcond : (p == 0 || decide (16 < p) || decide ((pad16 b).length < p)) = false := by
    rw [hlen]
    have e1 : (p == 0) = false := beq_eq_false_iff_ne.mpr (by omega)
    have e2 : decide (16 < p) = false := decide_eq_false (by omega)
    have e3 : decide (b.length + p < p) = false := decide_eq_false (by omega)
    rw [e1, e2, e3]
    rfl
  have hall : (List.replicate p (byteOfNat p)).all (· == byteOfNat p) = true := by
    simp [List.all_eq_true, List.mem_replicate]
  unfold unpad16
  rw [hlast]
  simp only [hval, hcond, Bool.false_eq_true, if_false, hdrop, hall, if_true, htake]

/-- The AES-256-CBC decryption convention of `download` inverts the
encryption convention of `upload` under the same key and IV. -/
theorem aesCbcDecrypt_aesCbcEncrypt (key iv content ct : List (Fin 256))
    (h : aesCbcEncrypt key iv content = some ct) :
    aesCbcDecrypt key iv ct = some content := by
  unfold aesCbcEncrypt at h
  unfold aesCbcDecrypt
  cases hks : expandKey256 key with
  | none => rw [hks] at h; exact absurd h (by simp)
  | some ks =>
    rw [hks] at h
    cases hiv : ivBlock iv with
    | none => rw [hiv] at h; exact absurd h (by simp)
    | some ivb =>
      rw [hiv] at h
      cases hbl : bytesToBlocks (pad16 content) with
      | none => rw [hbl] at h; exact absurd h (by simp)
      | some blocks =>
        rw [hbl] at h
        simp only [Option.some.injEq] at h
        subst h
        rw [bytesToBlocks_blocksToBytes]
        show unpad16 (blocksToBytes (cbcDecryptBlocks ks ivb (cbcEncryptBlocks ks ivb blocks)))
          = some content
        rw [cbcDecrypt_cbcEncrypt, blocksToBytes_of_bytesToBlocks _ _ hbl]
        exact unpad16_pad16 content

/-! ### `Object.assign` lemmas (for the C1 pagination/payload merge). -/

theorem assocGet_eq_none_of_not_mem {α : Type} (l : List (String × α)) (k : String)
    (h : k ∉ l.map Prod.fst) : assocGet l k = none := by
  induction l with
  | nil => rfl
  | cons a t ih =>
    simp only [List.map_cons, List.mem_cons, not_or] at h
    have hk : (a.1 == k) = false := beq_eq_false_iff_ne.mpr (fun he => h.1 (he ▸ rfl))
    simp only [assocGet, List.find?, hk]
    exact ih h.2

theorem assocGet_assocSet_self {α : Type} (l : List (String × α)) (k : String) (v : α) :
    assocGet (assocSet l k v) k = some v := by
  unfold assocSet
  cases ha : l.any (fun p => p.1 == k) with
  | false =>
    simp only [Bool.false_eq_true, if_false]
    induction l with
    | nil => simp [assocGet, List.find?]
    | cons a t ih =>
      simp only [List.any_cons, Bool.or_eq_false_iff] at ha
      simp only [List.cons_append, assocGet, List.find?, ha.1]
      exact ih ha.2
  | true =>
    simp only [if_true]
    induction l with
    | nil => simp at ha
    | cons a t ih =>
      simp only [List.any_cons, Bool.or_eq_true_iff] at ha
      cases hak : (a.1 == k) with
      | true =>
        simp only [List.map_cons, hak, if_true, assocGet, List.find?, beq_self_eq_true]
        rfl
      | false =>
        have hta : t.any (fun p => p.1 == k) = true := by
          cases ha with
          | inl h => rw [hak] at h; exact absurd h (by simp)
          | inr h => exact h
        simp only [List.map_cons, hak, if_false, Bool.false_eq_true, assocGet, List.find?]
        exact ih hta

theorem assocGet_map_set_ne {α : Type} (l : List (String × α)) (k k' : String) (v : α)
    (hne : k' ≠ k) :
    assocGet (l.map (fun p => if p.1 == k then (k, v) else p)) k' = assocGet l k' := by
  have hkk : (k == k') = false := beq_eq_false_iff_ne.mpr (fun he => hne (he ▸ rfl))
  induction l with
  | nil => rfl
  | cons a t ih =>
    cases hak : (a.1 == k) with
    | true =>
      have hak' : (a.1 == k') = false := by
        have h1 : a.1 = k := by simpa using hak
        rw [h1]; exact hkk
      simp only [List.map_cons, hak, if_true, assocGet, List.find?, hkk, hak',
        Bool.false_eq_true]
      exact ih
    | false =>
      simp only [List.map_cons, hak, Bool.false_eq_true, if_false, assocGet, List.find?]
      cases hak' : (a.1 == k') with
      | true => rfl
      | false => exact ih

theorem assocGet_append_single_ne {α : Type} (l : List (String × α)) (k k' : String) (v : α)
    (hne : k' ≠ k) : assocGet (l ++ [(k, v)]) k' = assocGet l k' := by
  have hkk : (k == k') = false := beq_eq_false_iff_ne.mpr (fun he => hne (he ▸ rfl))
  induction l with
  | nil => simp [assocGet, List.find?, hkk]
  | cons a t ih =>
    simp only [List.cons_append, assocGet, List.find?]
    cases hak' : (a.1 == k') with
    | true => rfl
    | false => exact ih

theorem assocGet_assocSet_ne {α : Type} (l : List (String × α)) (k k' : String) (v : α)
    (hne : k' ≠ k) : assocGet (assocSet l k v) k' = assocGet l k' := by
  unfold assocSet
  cases ha : l.any (fun p => p.1 == k) with
  | true =>
    simp only [if_true]
    exact assocGet_map_set_ne l k k' v hne
  | false =>
    simp only [Bool.false_eq_true, if_false]
    exact assocGet_append_single_ne l k k' v hne

/-- A key absent from the source is looked up in the target after
`Object.assign`. -/
theorem assocGet_assocAssign_of_none (t s : List (String × Json)) (k : String)
    (h : assocGet s k = none) : assocGet (assocAssign t s) k = assocGet t k := by
  induction s generalizing t with
  | nil => rfl
  | cons a rest ih =>
    have hak : (a.1 == k) = false := by
      by_contra hb
      have : (a.1 == k) = true := by
        cases hx : (a.1 == k) with
        | true => rfl
        | false => exact absurd hx hb
      simp only [assocGet, List.find?, this] at h
      exact absurd h (by simp)
    have hrest : assocGet rest k = none := by
      simpa only [assocGet, List.find?, hak, Bool.false_eq_true] using h
    show assocGet (assocAssign (assocSet t a.1 a.2) rest) k = assocGet t k
    rw [ih _ hrest]
    exact assocGet_assocSet_ne t a.1 k a.2 (fun he => by simp [he] at hak)

/-- A binding of a duplicate-free source survives `Object.assign` into any
target. -/
theorem assocGet_assocAssign_of_some (t s : List (String × Json)) (k : String) (v : Json)
    (hnd : (s.map Prod.fst).Nodup) (h : assocGet s k = some v) :
    assocGet (assocAssign t s) k = some v := by
  induction s generalizing t with
  | nil => exact absurd h (by simp [assocGet])
  | cons a rest ih =>
    simp only [List.map_cons, List.nodup_cons] at hnd
    show assocGet (assocAssign (assocSet t a.1 a.2) rest) k = some v
    cases hak : (a.1 == k) with
    | true =>
      have hk : a.1 = k := by simpa using hak
      have hv : v = a.2 := by
        simp only [assocGet, List.find?, hak] at h
        exact (Option.some.injEq _ _ ▸ h).symm
      have hrest : assocGet rest k = none := by
        apply assocGet_eq_none_of_not_mem
        rw [← hk]
        exact hnd.1
      rw [assocGet_assocAssign_of_none _ _ _ hrest, hv, ← hk]
      exact assocGet_assocSet_self t a.1 a.2
    | false =>
      have hrest : assocGet rest k = some v := by
        simpa only [assocGet, List.find?, hak, Bool.false_eq_true] using h
      exact ih _ hnd.2 hrest

/-! ## Per-claim theorems. -/

/-- Claim C1, as stated, is false: `callAPI` merges the payload into the
pagination object via `Object.assign(json_res.pagination, json_res.payload)`
(line 374), so on a key collision the payload value wins.  Concretely, with
pagination `{k:1}` and payload `{k:2}` and no errors list, the returned
object carries `k ↦ 2`: it does not contain the pagination field `k ↦ 1`,
refuting "the returned value contains ... every field of the pagination
section". -/
theorem claimC1_counterexample :
    (callAPI (catalogFx 0) stateAutoOffFx
        (worldC1 [("k", .num 1)] [("k", .num 2)]) reqFx).result
      = .ok (.obj [("k", .num 2)])
    ∧ assocGet [("k", (.num 1 : Json))] "k" = some (.num 1)
    ∧ ¬ assocGet [("k", (.num 2 : Json))] "k" = some (.num 1) := by
  refine ⟨rfl, rfl, ?_⟩
  intro h
  simp only [assocGet, List.find?, beq_self_eq_true, Option.map_some', Option.some.injEq] at h
  exact absurd (congrArg (fun j => match j with | Json.num n => n | _ => 0) h) (by decide)

/-- Claim C1 (amended): when the parsed body has no errors list and truthy
`pagination` and `payload` sections, `callAPI` returns the pagination object
with the payload fields assigned into it (`Object.assign(pagination,
payload)`): the result contains every field of the payload, and every field
of the pagination whose key the payload does not also bind (on a collision
the payload value wins). -/
theorem claimC1_merge (P Q : List (String × Json)) (hQ : (Q.map Prod.fst).Nodup) :
    (callAPI (catalogFx 0) stateAutoOffFx (worldC1 P Q) reqFx).result
        = .ok (.obj (assocAssign P Q))
    ∧ (∀ k v, assocGet Q k = some v → assocGet (assocAssign P Q) k = some v)
    ∧ (∀ k v, assocGet P k = some v → assocGet Q k = none →
        assocGet (assocAssign P Q) k = some v) := by
  refine ⟨rfl, ?_, ?_⟩
  · intro k v hv
    exact assocGet_assocAssign_of_some P Q k v hQ hv
  · intro k v hP hQn
    rw [assocGet_assocAssign_of_none P Q k hQn]
    exact hP

/-- Witness for `claimC1_merge` at a concrete pagination/payload pair. -/
theorem claimC1_merge_witness :
    ((([("items", (.arr [] : Json))] : List (String × Json)).map Prod.fst).Nodup)
    ∧ (callAPI (catalogFx 0) stateAutoOffFx
        (worldC1 [("nextToken", .str "t")] [("items", .arr [])]) reqFx).result
      = .ok (.obj [("nextToken", .str "t"), ("items", .arr [])]) :=
  ⟨by simp, (claimC1_merge [("nextToken", .str "t")] [("items", .arr [])] (by simp)).1⟩

/-- Claim C4: a 429 `QuotaExceeded` first response with auto-retry-throttled
enabled makes `callAPI` sleep for the operation's restore rate (seconds) and
retry the same expanded request; with a second `{payload:{ok:true}}` 200
response it returns `{ok:true}`.  The trace shows exactly: first API call,
a sleep of `rr` seconds, second API call. -/
theorem claimC4_throttleRetry (rr : Rat) :
    (callAPI (catalogFx rr) stateAutoOffFx worldC4 reqFx).result
        = .ok (.obj [("ok", .bool true)])
    ∧ (callAPI (catalogFx rr) stateAutoOffFx worldC4 reqFx).world.trace
        = [.apiRequest, .wait rr, .apiRequest]
    ∧ (callAPI (catalogFx rr) stateAutoOffFx worldC4 reqFx).state = stateAutoOffFx :=
  ⟨rfl, rfl, rfl⟩

/-- Claim C2: a 403 response with first error code `Unauthorized` and details
matching "access token ... expired", with token auto-refresh enabled, makes
`callAPI` refresh the access token and re-invoke itself with the same
expanded request: the trace is API call, token-endpoint call, API call
again; with the refresh delivering a new token and the second response being
200 `{payload: pay}`, `callAPI` returns `pay` (for every payload object
`pay`) and the session's access-token afterwards equals the refreshed
value. -/
theorem claimC2_expiredTokenRetry (pay : List (String × Json)) :
    (callAPI (catalogFx 0) stateAutoOnFx (worldC2 "Atza|NewToken" pay) reqFx).result
        = .ok (.obj pay)
    ∧ (callAPI (catalogFx 0) stateAutoOnFx (worldC2 "Atza|NewToken" pay) reqFx).state.access_token
        = some (.str "Atza|NewToken")
    ∧ (callAPI (catalogFx 0) stateAutoOnFx (worldC2 "Atza|NewToken" pay) reqFx).world.trace
        = [.apiRequest, .tokenRequest, .apiRequest] :=
  ⟨rfl, rfl, rfl⟩

/-! ### Token-manager specification lemmas (serving C3 and C8). -/

theorem refreshAccessTokenErrorBranch_spec (s : SPState) (w1 : World) (body : Json) :
    ∃ e, refreshAccessTokenErrorBranch s w1 body = ⟨.error e, s, w1⟩ := by
  unfold refreshAccessTokenErrorBranch
  cases jsGetOpt body "error" with
  | none => exact ⟨_, rfl⟩
  | some ev =>
    cases h : jsTruthy ev <;> simp [h]

/-- Full characterization of the effect of `refreshAccessToken` on the session:
it never touches region/refresh-token/options/role-credentials; on success
the requested token exists afterwards, and exactly one token field was
written (the per-scope cache entry when a scope was given, the singleton
access-token otherwise); on failure the session is untouched. -/
theorem refreshAccessToken_spec (s : SPState) (w : World) (scope : Option String) :
    ((refreshAccessToken s w scope).state.region = s.region
     ∧ (refreshAccessToken s w scope).state.refresh_token = s.refresh_token
     ∧ (refreshAccessToken s w scope).state.options = s.options
     ∧ (refreshAccessToken s w scope).state.role_credentials = s.role_credentials)
    ∧ ((refreshAccessToken s w scope).result = .ok () →
       (tokenExists (refreshAccessToken s w scope).state scope = true
        ∧ (scopeTruthy scope = false →
            (refreshAccessToken s w scope).state.grantless_tokens = s.grantless_tokens)
        ∧ (scopeTruthy scope = true →
            (refreshAccessToken s w scope).state.access_token = s.access_token
            ∧ ∃ tok, (refreshAccessToken s w scope).state.grantless_tokens
                = assocSet s.grantless_tokens (scope.getD "") tok)))
    ∧ (∀ e, (refreshAccessToken s w scope).result = .error e →
        (refreshAccessToken s w scope).state = s) := by
  cases hb : constructRefreshAccessTokenBody s scope with
  | error e => simp [refreshAccessToken, hb]
  | ok u =>
    cases u
    cases hq : w.tokenResponses with
    | nil => simp [refreshAccessToken, hb, World.popToken, hq]
    | cons r rest =>
      cases hbody : r.body with
      | none => simp [refreshAccessToken, hb, World.popToken, hq, hbody]
      | some body =>
        cases hat : jsGetOpt body "access_token" with
        | none =>
          obtain ⟨e, he⟩ := refreshAccessTokenErrorBranch_spec s
            { w with tokenResponses := rest, trace := w.trace ++ [.tokenRequest] } body
          simp [refreshAccessToken, hb, World.popToken, hq, hbody, hat, he]
        | some tok =>
          cases htr : jsTruthy tok with
          | false =>
            obtain ⟨e, he⟩ := refreshAccessTokenErrorBranch_spec s
              { w with tokenResponses := rest, trace := w.trace ++ [.tokenRequest] } body
            simp [refreshAccessToken, hb, World.popToken, hq, hbody, hat, htr, he]
          | true =>
            cases hsc : scopeTruthy scope with
            | true =>
              refine ⟨?_, ?_, ?_⟩
              · simp [refreshAccessToken, hb, World.popToken, hq, hbody, hat, htr, hsc]
              · intro _
                refine ⟨?_, ?_, ?_⟩
                · simp [refreshAccessToken, hb, World.popToken, hq, hbody, hat, htr, hsc,
                    tokenExists, truthyOpt, assocGet_assocSet_self]
                · intro hf
                  exact absurd hf (by decide)
                · intro _
                  refine ⟨?_, ⟨tok, ?_⟩⟩
                  · simp [refreshAccessToken, hb, World.popToken, hq, hbody, hat, htr, hsc]
                  · simp [refreshAccessToken, hb, World.popToken, hq, hbody, hat, htr, hsc]
              · intro e he
                exfalso
                simp [refreshAccessToken, hb, World.popToken, hq, hbody, hat, htr, hsc] at he
            | false =>
              refine ⟨?_, ?_, ?_⟩
              · simp [refreshAccessToken, hb, World.popToken, hq, hbody, hat, htr, hsc]
              · intro _
                refine ⟨?_, ?_, ?_⟩
                · simp [refreshAccessToken, hb, World.popToken, hq, hbody, hat, htr, hsc,
                    tokenExists, truthyOpt]
                · intro _
                  simp [refreshAccessToken, hb, World.popToken, hq, hbody, hat, htr, hsc]
                · intro hf
                  exact absurd hf (by decide)
              · intro e he
                exfalso
                simp [refreshAccessToken, hb, World.popToken, hq, hbody, hat, htr, hsc] at he

/-- Full characterization of the effect of `refreshRoleCredentials` on the
session: on success only the role-credentials field is written (and becomes
present); on failure the session is untouched; the token fields and the
immutable configuration are never touched. -/
theorem refreshRoleCredentials_spec (s : SPState) (w : World) :
    ((refreshRoleCredentials s w).state.region = s.region
     ∧ (refreshRoleCredentials s w).state.refresh_token = s.refresh_token
     ∧ (refreshRoleCredentials s w).state.options = s.options
     ∧ (refreshRoleCredentials s w).state.access_token = s.access_token
     ∧ (refreshRoleCredentials s w).state.grantless_tokens = s.grantless_tokens)
    ∧ ((refreshRoleCredentials s w).result = .ok () →
        (refreshRoleCredentials s w).state.role_credentials.isSome = true)
    ∧ (∀ e, (refreshRoleCredentials s w).result = .error e →
        (refreshRoleCredentials s w).state = s) := by
  cases hq : w.roleResponses with
  | nil => simp [refreshRoleCredentials, World.popRole, hq]
  | cons r rest =>
    cases hbody : r.body with
    | none => simp [refreshRoleCredentials, World.popRole, hq, hbody]
    | some body =>
      cases hcred : (jsTruthy body && truthyOpt (jsGetOpt body "AssumeRoleResponse")
          && truthyOpt (jsGetOpt (jsGetD body "AssumeRoleResponse") "AssumeRoleResult")
          && truthyOpt (jsGetOpt (jsGetD (jsGetD body "AssumeRoleResponse") "AssumeRoleResult") "Credentials")) with
      | true => simp [refreshRoleCredentials, World.popRole, hq, hbody, hcred]
      | false =>
        cases herr : (jsTruthy body && truthyOpt (jsGetOpt body "ErrorResponse")
            && truthyOpt (jsGetOpt (jsGetD body "ErrorResponse") "Error")) with
        | true => simp [refreshRoleCredentials, World.popRole, hq, hbody, hcred, herr]
        | false => simp [refreshRoleCredentials, World.popRole, hq, hbody, hcred, herr]

/-- Lemma: `tokenExists` only looks at the token fields. -/
theorem tokenExists_congr (s s' : SPState) (scope : Option String)
    (ha : s'.access_token = s.access_token) (hg : s'.grantless_tokens = s.grantless_tokens) :
    tokenExists s' scope = tokenExists s scope := by
  unfold tokenExists
  rw [ha, hg]

/-- Claim C3 (amended): characterization of `ensureAuth`
(`_validateAccessTokenAndRoleCredentials`).  With auto-refresh disabled it is
a no-op exactly when the required token and the role credentials are both
present, and fails with `NO_ACCESS_TOKEN_AND_OR_ROLE_CREDENTIALS_PRESENT`
(leaving session and world untouched) exactly when either is absent.  With
auto-refresh enabled it refreshes whatever is missing; a refresh that itself
fails propagates its own error (not the
`NO_ACCESS_TOKEN_AND_OR_ROLE_CREDENTIALS_PRESENT` code), and when the
attempted refreshes succeed the required token and credentials are present
afterwards and `ensureAuth` succeeds. -/
theorem claimC3_ensureAuthSpec (s : SPState) (w : World) (scope : Option String) :
    (s.options.auto_request_tokens = false →
      (tokenExists s scope = true → s.role_credentials.isSome = true →
        ensureAuth s w scope = ⟨.ok (), s, w⟩)
      ∧ ((tokenExists s scope = false ∨ s.role_credentials = none) →
        ensureAuth s w scope = ⟨.error (.custom "NO_ACCESS_TOKEN_AND_OR_ROLE_CREDENTIALS_PRESENT"
          (.str "Did you turn off auto_request_tokens and forgot to refresh the access token and/or role credentials and/or the scope for a grantless token?") .null), s, w⟩))
    ∧ (s.options.auto_request_tokens = true →
      (tokenExists s scope = true → s.role_credentials.isSome = true →
        ensureAuth s w scope = ⟨.ok (), s, w⟩)
      ∧ (tokenExists s scope = false →
        (∀ e s1 w1, refreshAccessToken s w scope = ⟨.error e, s1, w1⟩ →
          ensureAuth s w scope = ⟨.error e, s1, w1⟩)
        ∧ (∀ s1 w1, refreshAccessToken s w scope = ⟨.ok (), s1, w1⟩ →
          (s1.role_credentials.isSome = true → ensureAuth s w scope = ⟨.ok (), s1, w1⟩)
          ∧ (s1.role_credentials = none →
            (∀ e s2 w2, refreshRoleCredentials s1 w1 = ⟨.error e, s2, w2⟩ →
              ensureAuth s w scope = ⟨.error e, s2, w2⟩)
            ∧ (∀ s2 w2, refreshRoleCredentials s1 w1 = ⟨.ok (), s2, w2⟩ →
              ensureAuth s w scope = ⟨.ok (), s2, w2⟩))))
      ∧ (tokenExists s scope = true → s.role_credentials = none →
        (∀ e s2 w2, refreshRoleCredentials s w = ⟨.error e, s2, w2⟩ →
          ensureAuth s w scope = ⟨.error e, s2, w2⟩)
        ∧ (∀ s2 w2, refreshRoleCredentials s w = ⟨.ok (), s2, w2⟩ →
          ensureAuth s w scope = ⟨.ok (), s2, w2⟩))) := by
  constructor
  · intro hauto
    constructor
    · intro htok hrole
      obtain ⟨rc, hrc⟩ := Option.isSome_iff_exists.mp hrole
      simp [ensureAuth, hauto, ensureAuthFinalCheck, htok, hrc]
    · intro hmiss
      cases hmiss with
      | inl htok => simp [ensureAuth, hauto, ensureAuthFinalCheck, htok]
      | inr hrole => simp [ensureAuth, hauto, ensureAuthFinalCheck, hrole]
  · intro hauto
    refine ⟨?_, ?_, ?_⟩
    · intro htok hrole
      obtain ⟨rc, hrc⟩ := Option.isSome_iff_exists.mp hrole
      simp [ensureAuth, hauto, ensureAuthFinalCheck, htok, hrc]
    · intro htok
      constructor
      · intro e s1 w1 hra
        simp [ensureAuth, hauto, htok, hra]
      · intro s1 w1 hra
        have htok1 : tokenExists s1 scope = true := by
          have hspec := (refreshAccessToken_spec s w scope).2.1
          rw [hra] at hspec
          exact (hspec rfl).1
        constructor
        · intro hrole1
          obtain ⟨rc, hrc⟩ := Option.isSome_iff_exists.mp hrole1
          simp [ensureAuth, hauto, htok, hra, ensureAuthFinalCheck, htok1, hrc]
        · intro hrole1
          constructor
          · intro e s2 w2 hrr
            simp [ensureAuth, hauto, htok, hra, hrole1, hrr]
          · intro s2 w2 hrr
            have hrole2 : s2.role_credentials.isSome = true := by
              have hspec := (refreshRoleCredentials_spec s1 w1).2.1
              rw [hrr] at hspec
              exact hspec rfl
            have htok2 : tokenExists s2 scope = true := by
              have hfr := (refreshRoleCredentials_spec s1 w1).1
              rw [hrr] at hfr
              rw [tokenExists_congr s1 s2 scope hfr.2.2.2.1 hfr.2.2.2.2]
              exact htok1
            obtain ⟨rc, hrc⟩ := Option.isSome_iff_exists.mp hrole2
            simp [ensureAuth, hauto, htok, hra, hrole1, hrr, ensureAuthFinalCheck, htok2, hrc]
    · intro htok hrole
      constructor
      · intro e s2 w2 hrr
        simp [ensureAuth, hauto, htok, hrole, hrr]
      · intro s2 w2 hrr
        have hrole2 : s2.role_credentials.isSome = true := by
          have hspec := (refreshRoleCredentials_spec s w).2.1
          rw [hrr] at hspec
          exact hspec rfl
        have htok2 : tokenExists s2 scope = true := by
          have hfr := (refreshRoleCredentials_spec s w).1
          rw [hrr] at hfr
          rw [tokenExists_congr s s2 scope hfr.2.2.2.1 hfr.2.2.2.2]
          exact htok
        obtain ⟨rc, hrc⟩ := Option.isSome_iff_exists.mp hrole2
        simp [ensureAuth, hauto, htok, hrole, hrr, ensureAuthFinalCheck, htok2, hrc]

/-- Claim C3, as stated, is false in its "fails with
`NO_ACCESS_TOKEN_AND_OR_ROLE_CREDENTIALS_PRESENT` exactly when, after any
attempted refresh, the required token or the role credentials are still
absent" part: when the attempted refresh itself fails (here the token
endpoint answers with a structured `invalid_grant` error), `ensureAuth`
fails with the propagated upstream code, not with
`NO_ACCESS_TOKEN_AND_OR_ROLE_CREDENTIALS_PRESENT`, although the required
token is still absent after the attempt. -/
theorem claimC3_counterexample :
    (ensureAuth stateC3 worldC3 none).result
      = .error (.custom "invalid_grant" (.str "The request has an invalid grant parameter") .null)
    ∧ tokenExists (ensureAuth stateC3 worldC3 none).state none = false
    ∧ stateC3.options.auto_request_tokens = true
    ∧ "invalid_grant" ≠ "NO_ACCESS_TOKEN_AND_OR_ROLE_CREDENTIALS_PRESENT" :=
  ⟨rfl, rfl, rfl, by decide⟩

/-- Witness for `claimC3_ensureAuthSpec`: with auto-refresh off and both the
token and the role credentials present, `ensureAuth` is a no-op. -/
theorem claimC3_witness : ensureAuth stateAutoOffFx {} none = ⟨.ok (), stateAutoOffFx, {}⟩ :=
  ((claimC3_ensureAuthSpec stateAutoOffFx {} none).1 rfl).1 rfl rfl

/-- Claim C5: any configuration whose region is absent or outside
`{"eu","na","fe"}` makes the constructor throw `NO_VALID_REGION_PROVIDED`,
regardless of every other configuration field (the credential loader is an
external collaborator consumed as an opaque resolved bundle, so it cannot
pre-empt the region check). -/
theorem claimC5_invalidRegion (config : SPConfig)
    (h : ∀ r, config.region = some r → r ≠ "eu" ∧ r ≠ "na" ∧ r ≠ "fe") :
    mkSellingPartner config = .error (.custom "NO_VALID_REGION_PROVIDED"
      (.str "Please provide one of: eu, na or fe") .null) := by
  cases hc : config.region with
  | none => simp [mkSellingPartner, hc]
  | some r =>
    obtain ⟨h1, h2, h3⟩ := h r hc
    have e1 : (r == "eu") = false := beq_eq_false_iff_ne.mpr h1
    have e2 : (r == "na") = false := beq_eq_false_iff_ne.mpr h2
    have e3 : (r == "fe") = false := beq_eq_false_iff_ne.mpr h3
    simp [mkSellingPartner, hc, e1, e2, e3]

/-- Witness for `claimC5_invalidRegion`: region `"us"`, with every other
field present and well-formed. -/
theorem claimC5_witness :
    mkSellingPartner
      { region := some "us", refresh_token := some "refresh0",
        access_token := some (.str "tok"), role_credentials := some roleCredsFx,
        optionsGiven := some {}, credentials := .obj [], credentials_path := some "/tmp/c" }
      = .error (.custom "NO_VALID_REGION_PROVIDED"
        (.str "Please provide one of: eu, na or fe") .null) :=
  claimC5_invalidRegion _ (by
    intro r hr
    injection hr with hr
    subst hr
    exact ⟨by decide, by decide, by decide⟩)

/-- Claim C7: `callAPI` with an absent (or JS-falsy) operation name fails
with `NO_OPERATION_GIVEN`, and with an operation name missing from the
catalog fails with `OPERATION_NOT_FOUND`; in both cases the session and the
world (response queues, effect trace — hence no token refresh, no role
assumption, no signed request, no sleep) are returned untouched. -/
theorem claimC7_unknownOperation (cat : Catalog) (s : SPState) (w : World) (req : ReqParams) :
    (req.operation = none →
      callAPI cat s w req = ⟨.error (.custom "NO_OPERATION_GIVEN"
        (.str "Please provide an operation to call") .null), s, w⟩)
    ∧ (∀ op, req.operation = some op → op ≠ "" → catLookup cat op = none →
      callAPI cat s w req = ⟨.error (.custom "OPERATION_NOT_FOUND"
        (.str ("No operation found: " ++ op)) .null), s, w⟩) := by
  constructor
  · intro hop
    simp [callAPI, callAPIFuel, validateOperation, hop]
  · intro op hop hne hcat
    have hb : (op != "") = true := by
      simp [hne]
    simp [callAPI, callAPIFuel, validateOperation, hop, hb, hcat]

/-- Witness for `claimC7_unknownOperation` at both failure modes. -/
theorem claimC7_witness :
    callAPI [] stateAutoOffFx {} { operation := none }
      = ⟨.error (.custom "NO_OPERATION_GIVEN"
          (.str "Please provide an operation to call") .null), stateAutoOffFx, {}⟩
    ∧ callAPI [] stateAutoOffFx {} { operation := some "getOrders" }
      = ⟨.error (.custom "OPERATION_NOT_FOUND"
          (.str ("No operation found: " ++ "getOrders")) .null), stateAutoOffFx, {}⟩ :=
  ⟨(claimC7_unknownOperation [] stateAutoOffFx {} { operation := none }).1 rfl,
   (claimC7_unknownOperation [] stateAutoOffFx {} { operation := some "getOrders" }).2
     "getOrders" rfl (by decide) rfl⟩

/-- Claim C6, as stated, is false: `_validateEncryptionDetails` first checks
`!details || !details.encryptionDetails || !details.url`, so a details
argument whose encryption standard is not `"AES"` but which lacks a `url`
fails with `DOWNLOAD_INFORMATION_MISSING`, not with
`UNKNOWN_ENCRYPTION_STANDARD` (still before any network call). -/
theorem claimC6_counterexample :
    (download (fun b => some b) detailsNoUrl none {}).result
      = .error (.custom "DOWNLOAD_INFORMATION_MISSING"
          (.str "Please provide encryptionDetails and url") .null)
    ∧ (download (fun b => some b) detailsNoUrl none {}).world = ({} : World)
    ∧ isStrEq (jsGetOpt (jsGetD detailsNoUrl "encryptionDetails") "standard") "AES" = false
    ∧ "DOWNLOAD_INFORMATION_MISSING" ≠ "UNKNOWN_ENCRYPTION_STANDARD" :=
  ⟨rfl, rfl, rfl, by decide⟩

/-- Claim C6 (amended): for every details argument with truthy
`encryptionDetails` and `url` whose `encryptionDetails.standard` is not
strictly `"AES"`, `download` fails with `UNKNOWN_ENCRYPTION_STANDARD` and
the world is untouched: no transfer fetch happened (a details argument
missing `encryptionDetails` or `url` instead fails, equally before any
network call, with `DOWNLOAD_INFORMATION_MISSING`). -/
theorem claimC6_unknownStandard (gunzip : List (Fin 256) → Option (List (Fin 256)))
    (details : Json) (optUnzip : Option Bool) (w : World)
    (hd : jsTruthy details = true)
    (he : truthyOpt (jsGetOpt details "encryptionDetails") = true)
    (hu : truthyOpt (jsGetOpt details "url") = true)
    (hs : isStrEq (jsGetOpt (jsGetD details "encryptionDetails") "standard") "AES" = false) :
    download gunzip details optUnzip w
      = ⟨.error (.custom "UNKNOWN_ENCRYPTION_STANDARD"
          (.str ("Cannot decrypt " ++ fieldTestString (jsGetD details "encryptionDetails") "standard"
            ++ ", expecting AES")) .null), w⟩ := by
  simp [download, validateEncryptionDetails, hd, he, hu, hs]

/-- Witness for `claimC6_unknownStandard`: an RSA descriptor with a url. -/
theorem claimC6_witness :
    download (fun b => some b)
      (.obj [("url", .str "https://presigned.example/doc"),
        ("encryptionDetails", .obj [("standard", .str "RSA")])]) none {}
      = ⟨.error (.custom "UNKNOWN_ENCRYPTION_STANDARD"
          (.str "Cannot decrypt RSA, expecting AES") .null), {}⟩ :=
  claimC6_unknownStandard (fun b => some b)
    (.obj [("url", .str "https://presigned.example/doc"),
      ("encryptionDetails", .obj [("standard", .str "RSA")])]) none {} rfl rfl rfl rfl

theorem ensureAuthFinalCheck_state (s : SPState) (w : World) (scope : Option String) :
    (ensureAuthFinalCheck s w scope).state = s ∧ (ensureAuthFinalCheck s w scope).world = w := by
  unfold ensureAuthFinalCheck
  split <;> exact ⟨rfl, rfl⟩

/-- With auto-refresh off, `ensureAuth` leaves session and world untouched. -/
theorem ensureAuth_noAuto (s : SPState) (w : World) (scope : Option String)
    (h : s.options.auto_request_tokens = false) :
    (ensureAuth s w scope).state = s ∧ (ensureAuth s w scope).world = w := by
  have hf := ensureAuthFinalCheck_state s w scope
  simp [ensureAuth, h, hf.1, hf.2]

/-- Lemma: `ensureAuth` never touches the immutable configuration fields. -/
theorem ensureAuth_configFrame (s : SPState) (w : World) (scope : Option String) :
    (ensureAuth s w scope).state.region = s.region
    ∧ (ensureAuth s w scope).state.refresh_token = s.refresh_token
    ∧ (ensureAuth s w scope).state.options = s.options := by
  cases hauto : s.options.auto_request_tokens with
  | false =>
    have h := (ensureAuth_noAuto s w scope hauto).1
    rw [h]
    exact ⟨rfl, rfl, rfl⟩
  | true =>
    cases ht : tokenExists s scope with
    | true =>
      cases hrn : s.role_credentials.isNone with
      | false =>
        have hf := ensureAuthFinalCheck_state s w scope
        simp [ensureAuth, hauto, ht, hrn, hf.1]
      | true =>
        rcases hrr : refreshRoleCredentials s w with ⟨res2, s2, w2⟩
        have hfr := (refreshRoleCredentials_spec s w).1
        rw [hrr] at hfr
        cases res2 with
        | error e => simp [ensureAuth, hauto, ht, hrn, hrr] at hfr ⊢; exact ⟨hfr.1, hfr.2.1, hfr.2.2.1⟩
        | ok u =>
          cases u
          have hf := ensureAuthFinalCheck_state s2 w2 scope
          simp [ensureAuth, hauto, ht, hrn, hrr, hf.1] at hfr ⊢
          exact ⟨hfr.1, hfr.2.1, hfr.2.2.1⟩
    | false =>
      rcases hra : refreshAccessToken s w scope with ⟨res1, s1, w1⟩
      have hfa := (refreshAccessToken_spec s w scope).1
      rw [hra] at hfa
      cases res1 with
      | error e => simp [ensureAuth, hauto, ht, hra] at hfa ⊢; exact ⟨hfa.1, hfa.2.1, hfa.2.2.1⟩
      | ok u =>
        cases u
        cases hrn : s1.role_credentials.isNone with
        | false =>
          have hf := ensureAuthFinalCheck_state s1 w1 scope
          simp [ensureAuth, hauto, ht, hra, hrn, hf.1] at hfa ⊢
          exact ⟨hfa.1, hfa.2.1, hfa.2.2.1⟩
        | true =>
          rcases hrr : refreshRoleCredentials s1 w1 with ⟨res2, s2, w2⟩
          have hfr := (refreshRoleCredentials_spec s1 w1).1
          rw [hrr] at hfr
          cases res2 with
          | error e =>
            simp [ensureAuth, hauto, ht, hra, hrn, hrr] at hfa hfr ⊢
            exact ⟨hfr.1.trans hfa.1, (hfr.2.1).trans hfa.2.1, (hfr.2.2.1).trans hfa.2.2.1⟩
          | ok u =>
            cases u
            have hf := ensureAuthFinalCheck_state s2 w2 scope
            simp [ensureAuth, hauto, ht, hra, hrn, hrr, hf.1] at hfa hfr ⊢
            exact ⟨hfr.1.trans hfa.1, (hfr.2.1).trans hfa.2.1, (hfr.2.2.1).trans hfa.2.2.1⟩

theorem refreshA_region (s : SPState) (w : World) (scope : Option String) :
    (refreshAccessToken s w scope).state.region = s.region :=
  (refreshAccessToken_spec s w scope).1.1

theorem refreshA_refreshToken (s : SPState) (w : World) (scope : Option String) :
    (refreshAccessToken s w scope).state.refresh_token = s.refresh_token :=
  (refreshAccessToken_spec s w scope).1.2.1

theorem refreshA_options (s : SPState) (w : World) (scope : Option String) :
    (refreshAccessToken s w scope).state.options = s.options :=
  (refreshAccessToken_spec s w scope).1.2.2.1

theorem refreshR_region (s : SPState) (w : World) :
    (refreshRoleCredentials s w).state.region = s.region :=
  (refreshRoleCredentials_spec s w).1.1

theorem refreshR_refreshToken (s : SPState) (w : World) :
    (refreshRoleCredentials s w).state.refresh_token = s.refresh_token :=
  (refreshRoleCredentials_spec s w).1.2.1

theorem refreshR_options (s : SPState) (w : World) :
    (refreshRoleCredentials s w).state.options = s.options :=
  (refreshRoleCredentials_spec s w).1.2.2.1

theorem ensureAuth_region (s : SPState) (w : World) (scope : Option String) :
    (ensureAuth s w scope).state.region = s.region :=
  (ensureAuth_configFrame s w scope).1

theorem ensureAuth_refreshToken (s : SPState) (w : World) (scope : Option String) :
    (ensureAuth s w scope).state.refresh_token = s.refresh_token :=
  (ensureAuth_configFrame s w scope).2.1

theorem ensureAuth_options (s : SPState) (w : World) (scope : Option String) :
    (ensureAuth s w scope).state.options = s.options :=
  (ensureAuth_configFrame s w scope).2.2

theorem cfgEq_refl (s : SPState) : cfgEq s s := ⟨rfl, rfl, rfl⟩

theorem cfgEq_trans {s1 s2 s3 : SPState} (h21 : cfgEq s2 s1) (h32 : cfgEq s3 s2) :
    cfgEq s3 s1 :=
  ⟨h32.1.trans h21.1, h32.2.1.trans h21.2.1, h32.2.2.trans h21.2.2⟩

theorem cfgEq_of_outcome {α : Type} {o : Outcome α} {s : SPState} (h : cfgEq o.state s)
    {res : Except SPError α} {s' : SPState} {w' : World} (heq : o = ⟨res, s', w'⟩) :
    cfgEq s' s := by
  rw [heq] at h
  exact h

theorem ensureAuth_cfg (s : SPState) (w : World) (scope : Option String) :
    cfgEq (ensureAuth s w scope).state s :=
  ⟨ensureAuth_region s w scope, ensureAuth_refreshToken s w scope, ensureAuth_options s w scope⟩

theorem refreshA_cfg (s : SPState) (w : World) (scope : Option String) :
    cfgEq (refreshAccessToken s w scope).state s :=
  ⟨refreshA_region s w scope, refreshA_refreshToken s w scope, refreshA_options s w scope⟩

theorem refreshR_cfg (s : SPState) (w : World) :
    cfgEq (refreshRoleCredentials s w).state s :=
  ⟨refreshR_region s w, refreshR_refreshToken s w, refreshR_options s w⟩

/-- Theorem: `callAPI` never touches the immutable configuration fields of the
session, whatever path it takes (induction over the retry recursion). -/
theorem callAPIFuel_configFrame : ∀ (fuel : Nat) (cat : Catalog) (s : SPState) (w : World)
    (req : ReqParams), cfgEq (callAPIFuel fuel cat s w req).state s := by
  intro fuel
  induction fuel with
  | zero => intro cat s w req; exact cfgEq_refl s
  | succ n ih =>
    intro cat s w req
    simp only [callAPIFuel]
    repeat' split
    all_goals first
    | exact cfgEq_refl s
    | exact cfgEq_of_outcome (ensureAuth_cfg s w _) (by assumption)
    | exact cfgEq_of_outcome (cfgEq_trans
        (cfgEq_of_outcome (ensureAuth_cfg s w _) (by assumption)) (refreshA_cfg _ _ _))
        (by assumption)
    | exact cfgEq_of_outcome (cfgEq_trans
        (cfgEq_of_outcome (ensureAuth_cfg s w _) (by assumption)) (refreshR_cfg _ _))
        (by assumption)
    | exact cfgEq_trans (cfgEq_of_outcome (ensureAuth_cfg s w _) (by assumption)) (ih _ _ _ _)
    | exact cfgEq_trans (cfgEq_of_outcome (cfgEq_trans
        (cfgEq_of_outcome (ensureAuth_cfg s w _) (by assumption)) (refreshA_cfg _ _ _))
        (by assumption)) (ih _ _ _ _)
    | exact cfgEq_trans (cfgEq_of_outcome (cfgEq_trans
        (cfgEq_of_outcome (ensureAuth_cfg s w _) (by assumption)) (refreshR_cfg _ _))
        (by assumption)) (ih _ _ _ _)

theorem stateEq_of_outcome {α : Type} {o : Outcome α} {s : SPState} (h : o.state = s)
    {res : Except SPError α} {s' : SPState} {w' : World} (heq : o = ⟨res, s', w'⟩) :
    s' = s := by
  rw [heq] at h
  exact h

/-- With token auto-refresh off, `callAPI` can never invoke a refresh, and
the session comes back exactly as it went in, on every path (including
throttle retries). -/
theorem callAPIFuel_noAuto : ∀ (fuel : Nat) (cat : Catalog) (s : SPState) (w : World)
    (req : ReqParams), s.options.auto_request_tokens = false →
    (callAPIFuel fuel cat s w req).state = s := by
  intro fuel
  induction fuel with
  | zero => intro cat s w req h; rfl
  | succ n ih =>
    intro cat s w req h
    simp only [callAPIFuel]
    repeat' split
    all_goals solve
    | rfl
    | exact stateEq_of_outcome (ensureAuth_noAuto s w _ h).1 (by assumption)
    | (have hs := stateEq_of_outcome (ensureAuth_noAuto s w _ h).1 (by assumption)
       subst hs
       exact ih _ _ _ _ h)
    | (exfalso
       have hs := stateEq_of_outcome (ensureAuth_noAuto s w _ h).1 (by assumption)
       subst hs
       simp [h] at *)

/-- Claim C8: the session's token and role-credential fields are mutated
only by the two refresh operations.  `refreshAccessToken` never touches the
role credentials; on success it writes exactly one token field (the
per-scope cache entry — and only that key — when a scope was given, the
singleton access-token otherwise, which then exists) and on failure nothing.
`refreshRoleCredentials` never touches the token fields; on success it
writes only the role-credentials field, on failure nothing.  `callAPI` never
touches the immutable configuration fields, and when token auto-refresh is
off (so the refreshes cannot be invoked from its 403 handling or from
`ensureAuth`) it returns the session exactly unchanged on every path.
`download` and `upload` take no session at all in the model, mirroring that
the source methods never read or write the token/role fields. -/
theorem claimC8_sessionWrites :
    (∀ (s : SPState) (w : World) (scope : Option String),
      (refreshAccessToken s w scope).state.role_credentials = s.role_credentials
      ∧ ((refreshAccessToken s w scope).result = .ok () →
          tokenExists (refreshAccessToken s w scope).state scope = true
          ∧ (scopeTruthy scope = false →
              (refreshAccessToken s w scope).state.grantless_tokens = s.grantless_tokens)
          ∧ (scopeTruthy scope = true →
              (refreshAccessToken s w scope).state.access_token = s.access_token
              ∧ ∃ tok, (refreshAccessToken s w scope).state.grantless_tokens
                  = assocSet s.grantless_tokens (scope.getD "") tok))
      ∧ (∀ e, (refreshAccessToken s w scope).result = .error e →
          (refreshAccessToken s w scope).state = s))
    ∧ (∀ (s : SPState) (w : World),
      (refreshRoleCredentials s w).state.access_token = s.access_token
      ∧ (refreshRoleCredentials s w).state.grantless_tokens = s.grantless_tokens
      ∧ ((refreshRoleCredentials s w).result = .ok () →
          (refreshRoleCredentials s w).state.role_credentials.isSome = true)
      ∧ (∀ e, (refreshRoleCredentials s w).result = .error e →
          (refreshRoleCredentials s w).state = s))
    ∧ (∀ (cat : Catalog) (s : SPState) (w : World) (req : ReqParams),
        cfgEq (callAPI cat s w req).state s)
    ∧ (∀ (cat : Catalog) (s : SPState) (w : World) (req : ReqParams),
        s.options.auto_request_tokens = false → (callAPI cat s w req).state = s) := by
  refine ⟨?_, ?_, ?_, ?_⟩
  · intro s w scope
    obtain ⟨hframe, hok, herr⟩ := refreshAccessToken_spec s w scope
    exact ⟨hframe.2.2.2, fun h => hok h, herr⟩
  · intro s w
    obtain ⟨hframe, hok, herr⟩ := refreshRoleCredentials_spec s w
    exact ⟨hframe.2.2.2.1, hframe.2.2.2.2, hok, herr⟩
  · intro cat s w req
    exact callAPIFuel_configFrame _ cat s w req
  · intro cat s w req h
    exact callAPIFuel_noAuto _ cat s w req h

/-- Witness for `claimC8_sessionWrites`: with auto-refresh off, a full
`callAPI` run (including a throttle retry, via the C4 world) returns the
session untouched, and a role refresh leaves the access token in place. -/
theorem claimC8_witness :
    (callAPI (catalogFx 1) stateAutoOffFx worldC4 reqFx).state = stateAutoOffFx
    ∧ (refreshRoleCredentials stateAutoOffFx {}).state.access_token
        = stateAutoOffFx.access_token :=
  ⟨claimC8_sessionWrites.2.2.2 (catalogFx 1) stateAutoOffFx worldC4 reqFx rfl,
   (claimC8_sessionWrites.2.1 stateAutoOffFx {}).1⟩

/-- Claim C10: `upload` treats an empty-string feed content as absent
(`!feed.content` is true for `""`): with no file it fails
`NO_FEED_CONTENT_PROVIDED` even though a content value was explicitly
provided (leaving the world untouched), and with a file it reads and
uploads the file's bytes instead of the empty content — the PUT body is the
encryption of the file bytes. -/
theorem claimC10_emptyContent :
    (∀ w : World, upload (transferDetails keyZeroB64 ivZeroB64 false)
        (some { content := some [], file := none, contentType := some "text/xml" }) w
      = ⟨.error (.custom "NO_FEED_CONTENT_PROVIDED"
          (.str "Please provide content (string) or file (absolute path) of feed.") .null), w⟩)
    ∧ (∀ (fileBytes encrypted : List (Fin 256)),
        aesCbcEncrypt (List.replicate 32 0) (List.replicate 16 0) fileBytes = some encrypted →
        (upload (transferDetails keyZeroB64 ivZeroB64 false)
          (some { content := some [], file := some "/tmp/feed.xml", contentType := some "text/xml" })
          (worldC10 fileBytes)).result = .ok (.obj [("success", .bool true)])
        ∧ (upload (transferDetails keyZeroB64 ivZeroB64 false)
          (some { content := some [], file := some "/tmp/feed.xml", contentType := some "text/xml" })
          (worldC10 fileBytes)).world.trace
            = [.fileRead "/tmp/feed.xml", .transferPut encrypted]) := by
  constructor
  · intro w
    rfl
  · intro fileBytes encrypted hE
    have key : upload (transferDetails keyZeroB64 ivZeroB64 false)
        (some { content := some [], file := some "/tmp/feed.xml", contentType := some "text/xml" })
        (worldC10 fileBytes)
        = (match aesCbcEncrypt (List.replicate 32 0) (List.replicate 16 0) fileBytes with
           | none => ⟨.error (.js "cipher error"),
               { files := [("/tmp/feed.xml", fileBytes)],
                 transferResponses := [transferOkResponse []],
                 trace := [.fileRead "/tmp/feed.xml"] }⟩
           | some enc =>
             match World.popTransfer
                 { files := [("/tmp/feed.xml", fileBytes)],
                   transferResponses := [transferOkResponse []],
                   trace := [.fileRead "/tmp/feed.xml"] } (.transferPut enc) with
             | (none, w2) => ⟨.error (.js "no response from transfer url"), w2⟩
             | (some res, w2) =>
               match validateUpOrDownloadSuccess res "UPLOAD" with
               | .error e => ⟨.error e, w2⟩
               | .ok _ => ⟨.ok (.obj [("success", .bool true)]), w2⟩) := rfl
    constructor <;> (rw [key, hE]; rfl)

/-- Claim C9: for every plaintext, 32-byte key and 16-byte IV (presented
base64-encoded, as the transfer descriptor carries them), decrypting with
the `download` AES-256-CBC convention inverts encrypting with the `upload`
convention: (1) without compression, `download` of the ciphertext returns
the original bytes; (2) with gzip compression declared and `unzip` left at
its default `true`, `download` of the encrypted compressed bytes returns the
gunzipped plaintext (gzip itself is the external `zlib` collaborator, passed
as a function); (3) `upload` of a (non-empty) plaintext PUTs exactly the
AES-256-CBC ciphertext of that plaintext to the presigned URL.  A wrong-size
key or IV cannot reach this point: `aesCbcEncrypt` would not have produced a
ciphertext. -/
theorem claimC9_roundTrip :
    (∀ (ks ivs : String) (keyB ivB content E : List (Fin 256))
        (gunzip : List (Fin 256) → Option (List (Fin 256))) (optUnzip : Option Bool),
      base64Decode ks = some keyB → base64Decode ivs = some ivB →
      aesCbcEncrypt keyB ivB content = some E →
      (download gunzip (transferDetails ks ivs false) optUnzip (worldTransfer E)).result
        = .ok content)
    ∧ (∀ (ks ivs : String) (keyB ivB gzBytes content E : List (Fin 256))
        (gunzip : List (Fin 256) → Option (List (Fin 256))),
      base64Decode ks = some keyB → base64Decode ivs = some ivB →
      gunzip gzBytes = some content →
      aesCbcEncrypt keyB ivB gzBytes = some E →
      (download gunzip (transferDetails ks ivs true) none (worldTransfer E)).result
        = .ok content)
    ∧ (∀ (ks ivs : String) (keyB ivB : List (Fin 256)) (c0 : Fin 256)
        (rest E : List (Fin 256)),
      base64Decode ks = some keyB → base64Decode ivs = some ivB →
      aesCbcEncrypt keyB ivB (c0 :: rest) = some E →
      (upload (transferDetails ks ivs false)
        (some { content := some (c0 :: rest), file := none, contentType := some "text/xml" })
        (worldTransfer [])).result = .ok (.obj [("success", .bool true)])
      ∧ (upload (transferDetails ks ivs false)
        (some { content := some (c0 :: rest), file := none, contentType := some "text/xml" })
        (worldTransfer [])).world.trace = [.transferPut E]) := by
  refine ⟨?_, ?_, ?_⟩
  · intro ks ivs keyB ivB content E gunzip optUnzip h1 h2 hE
    have hdec := aesCbcDecrypt_aesCbcEncrypt keyB ivB content E hE
    show (match base64Decode ks, base64Decode ivs with
      | some key, some iv =>
        (match aesCbcDecrypt key iv E with
         | none => (⟨.error (.js "decipher error"),
             { transferResponses := [], trace := [Event.transferGet] }⟩ :
               TransferOutcome (List (Fin 256)))
         | some dec => ⟨.ok dec, { transferResponses := [], trace := [Event.transferGet] }⟩)
      | _, _ => ⟨.error (.js "Buffer.from error"),
          { transferResponses := [], trace := [Event.transferGet] }⟩).result = .ok content
    rw [h1, h2]
    show (match aesCbcDecrypt keyB ivB E with
      | none => (⟨.error (.js "decipher error"),
          { transferResponses := [], trace := [Event.transferGet] }⟩ :
            TransferOutcome (List (Fin 256)))
      | some dec => ⟨.ok dec, { transferResponses := [], trace := [Event.transferGet] }⟩).result
        = .ok content
    rw [hdec]
  · intro ks ivs keyB ivB gzBytes content E gunzip h1 h2 hg hE
    have hdec := aesCbcDecrypt_aesCbcEncrypt keyB ivB gzBytes E hE
    show (match base64Decode ks, base64Decode ivs with
      | some key, some iv =>
        (match aesCbcDecrypt key iv E with
         | none => (⟨.error (.js "decipher error"),
             { transferResponses := [], trace := [Event.transferGet] }⟩ :
               TransferOutcome (List (Fin 256)))
         | some dec =>
           match gunzip dec with
           | some unz => ⟨.ok unz, { transferResponses := [], trace := [Event.transferGet] }⟩
           | none => ⟨.error (.js "gunzip error"),
               { transferResponses := [], trace := [Event.transferGet] }⟩)
      | _, _ => ⟨.error (.js "Buffer.from error"),
          { transferResponses := [], trace := [Event.transferGet] }⟩).result = .ok content
    rw [h1, h2]
    show (match aesCbcDecrypt keyB ivB E with
      | none => (⟨.error (.js "decipher error"),
          { transferResponses := [], trace := [Event.transferGet] }⟩ :
            TransferOutcome (List (Fin 256)))
      | some dec =>
        match gunzip dec with
        | some unz => ⟨.ok unz, { transferResponses := [], trace := [Event.transferGet] }⟩
        | none => ⟨.error (.js "gunzip error"),
            { transferResponses := [], trace := [Event.transferGet] }⟩).result = .ok content
    rw [hdec]
    show (match gunzip gzBytes with
      | some unz => (⟨.ok unz, { transferResponses := [], trace := [Event.transferGet] }⟩ :
          TransferOutcome (List (Fin 256)))
      | none => ⟨.error (.js "gunzip error"),
          { transferResponses := [], trace := [Event.transferGet] }⟩).result = .ok content
    rw [hg]
  · intro ks ivs keyB ivB c0 rest E h1 h2 hE
    have key : upload (transferDetails ks ivs false)
        (some { content := some (c0 :: rest), file := none, contentType := some "text/xml" })
        (worldTransfer [])
        = (match base64Decode ks, base64Decode ivs with
           | some k, some iv =>
             (match aesCbcEncrypt k iv (c0 :: rest) with
              | none => (⟨.error (.js "cipher error"), worldTransfer []⟩ : TransferOutcome Json)
              | some enc =>
                match World.popTransfer (worldTransfer []) (.transferPut enc) with
                | (none, w2) => ⟨.error (.js "no response from transfer url"), w2⟩
                | (some res, w2) =>
                  match validateUpOrDownloadSuccess res "UPLOAD" with
                  | .error e => ⟨.error e, w2⟩
                  | .ok _ => ⟨.ok (.obj [("success", .bool true)]), w2⟩)
           | _, _ => ⟨.error (.js "Buffer.from error"), worldTransfer []⟩) := rfl
    constructor
    · rw [key, h1, h2]
      show (match aesCbcEncrypt keyB ivB (c0 :: rest) with
        | none => (⟨.error (.js "cipher error"), worldTransfer []⟩ : TransferOutcome Json)
        | some enc =>
          match World.popTransfer (worldTransfer []) (.transferPut enc) with
          | (none, w2) => ⟨.error (.js "no response from transfer url"), w2⟩
          | (some res, w2) =>
            match validateUpOrDownloadSuccess res "UPLOAD" with
            | .error e => ⟨.error e, w2⟩
            | .ok _ => ⟨.ok (.obj [("success", .bool true)]), w2⟩).result
          = .ok (.obj [("success", .bool true)])
      rw [hE]
      rfl
    · rw [key, h1, h2]
      show (match aesCbcEncrypt keyB ivB (c0 :: rest) with
        | none => (⟨.error (.js "cipher error"), worldTransfer []⟩ : TransferOutcome Json)
        | some enc =>
          match World.popTransfer (worldTransfer []) (.transferPut enc) with
          | (none, w2) => ⟨.error (.js "no response from transfer url"), w2⟩
          | (some res, w2) =>
            match validateUpOrDownloadSuccess res "UPLOAD" with
            | .error e => ⟨.error e, w2⟩
            | .ok _ => ⟨.ok (.obj [("success", .bool true)]), w2⟩).world.trace
          = [.transferPut E]
      rw [hE]
      rfl

/-- Witness for `claimC9_roundTrip`: a zero key/IV (given base64-encoded)
and the plaintext bytes of `"Hi"`; the kernel evaluates the AES-256-CBC
encryption and decryption concretely. -/
theorem claimC9_witness :
    (download (fun b => some b) (transferDetails keyZeroB64 ivZeroB64 false) none
      (worldTransfer ((aesCbcEncrypt (List.replicate 32 0) (List.replicate 16 0)
        [72, 105]).getD []))).result = .ok [72, 105] :=
  claimC9_roundTrip.1 keyZeroB64 ivZeroB64 (List.replicate 32 0) (List.replicate 16 0)
    [72, 105] _ (fun b => some b) none rfl rfl rfl

/-- Witness for the file branch of `claimC10_emptyContent` at concrete file
bytes. -/
theorem claimC10_witness :
    (upload (transferDetails keyZeroB64 ivZeroB64 false)
      (some { content := some [], file := some "/tmp/feed.xml", contentType := some "text/xml" })
      (worldC10 [72, 105])).result = .ok (.obj [("success", .bool true)]) :=
  (claimC10_emptyContent.2 [72, 105] _ rfl).1
